import Mathlib

/-
Verification of the state-reconciliation routine of the one_network module
(src/plugins/modules/cloud/opennebula/one_network.py).

The module is embedded shallowly: the remote OpenNebula service is a World
value (virtual-network pool, user pool, group pool, and the identity of the
authenticated API user), and every embedded function passes an explicit state
St consisting of the current World plus a trace of emitted events.  Each
remote procedure call appends an Event.call to the trace; mutating calls also
transform the World according to simple server-side semantics.  A module
failure (fail_json or an uncaught Python exception such as an AttributeError
on None) is an Except.error together with a terminal Event.failed marker on
the trace.
-/

namespace OneNetwork

instance {ε α : Type} [DecidableEq ε] [DecidableEq α] : DecidableEq (Except ε α) := fun x y => by
  cases x <;> cases y <;>
    first
      | exact Decidable.isFalse (fun h => Except.noConfusion h)
      | (rename_i a b
         exact if h : a = b then Decidable.isTrue (by rw [h])
           else Decidable.isFalse (fun hc => by injection hc; contradiction))

/-- A template body, as a dictionary of key and value bindings
(the module declares the template parameter with type dict). -/
abbrev Template := List (String × String)

/-- A virtual network record, with the attributes the module reads
(pyone exposes ID, NAME, TEMPLATE, UNAME, UID, GNAME, GID and CLUSTERS.ID). -/
structure Network where
  ID : Int
  NAME : String
  TEMPLATE : Template
  UNAME : String
  UID : Int
  GNAME : String
  GID : Int
  CLUSTERS : List Int
  deriving DecidableEq

/-- A user record of the user pool. -/
structure User where
  ID : Int
  NAME : String
  deriving DecidableEq

/-- A group record of the group pool. -/
structure Group where
  ID : Int
  NAME : String
  deriving DecidableEq

/-- The remote service state: the three pools plus the identity of the
authenticated API user. -/
structure World where
  vnets : List Network
  users : List User
  groups : List Group
  oneUid : Int
  oneUname : String
  oneGid : Int
  oneGname : String
  deriving DecidableEq

/-- One remote XML-RPC operation of the client endpoints the module's code
names.  The allocate endpoint appears in the source (one.network.allocate)
but is never reached: the concatenation building its argument raises a
TypeError first, so no trace ever carries the allocate constructor. -/
inductive RemoteCall where
  | vnpoolInfo
  | userpoolInfo
  | grouppoolInfo
  | allocate (name : Option String) (data : Option Template)
  | vnUpdate (id : Int) (data : Template) (mode : Int)
  | chown (id : Int) (uid : Int) (gid : Int)
  | vnDelete (id : Int)
  deriving DecidableEq

/-- Remote calls that mutate the remote state. -/
def isMutating : RemoteCall → Bool
  | RemoteCall.allocate _ _ => true
  | RemoteCall.vnUpdate _ _ _ => true
  | RemoteCall.chown _ _ _ => true
  | RemoteCall.vnDelete _ => true
  | _ => false

/-- Remote calls that only list a pool (vnpool.info, userpool.info,
grouppool.info). -/
def isPoolLookup : RemoteCall → Bool
  | RemoteCall.vnpoolInfo => true
  | RemoteCall.userpoolInfo => true
  | RemoteCall.grouppoolInfo => true
  | _ => false

/-- An observable event of one invocation: a remote call, or the point at
which the invocation aborted with a failure. -/
inductive Event where
  | call (c : RemoteCall)
  | failed
  deriving DecidableEq

/-- How an invocation failed: a clean fail_json, an AttributeError raised by
dereferencing None, the ValueError raised in update_network, or the TypeError
raised by the string concatenation that builds the allocate argument in
create_network. -/
inductive Failure where
  | failJson (msg : String)
  | attrError
  | valueError
  | typeError
  deriving DecidableEq

/-- The explicit state threaded through the embedded functions. -/
structure St where
  world : World
  trace : List Event
  deriving DecidableEq

/-- The dictionary built by get_network_info. -/
structure NetworkInfo where
  id : Int
  name : String
  template : Template
  user_name : String
  user_id : Int
  group_name : String
  group_id : Int
  clusters : List Int
  deriving DecidableEq

/-- The valid values of the state parameter (argument_spec choices). -/
inductive Sstate where
  | present
  | absent
  | query
  deriving DecidableEq

/-- The module parameters relevant to run (module.params). -/
structure Params where
  id : Option Int
  name : Option String
  user_name : Option String
  group_name : Option String
  state : Sstate
  template : Option Template
  deriving DecidableEq

/-- The result record assigned to self.result: the create and update paths
return a network info dictionary plus a changed flag, the delete path only a
changed flag, and the query path only the info dictionary. -/
structure ModResult where
  info : Option NetworkInfo
  changed : Option Bool
  deriving DecidableEq

/-- Append a remote call to the trace. -/
def emitCall (c : RemoteCall) (s : St) : St :=
  { s with trace := s.trace ++ [Event.call c] }

/-- Abort the invocation: record the failure point and propagate the error. -/
def failWith {α : Type} (f : Failure) (s : St) : Except Failure α × St :=
  (Except.error f, { s with trace := s.trace ++ [Event.failed] })

/-- Python truthiness of an optional integer parameter: None and 0 are falsy. -/
def truthyInt : Option Int → Bool
  | none => false
  | some i => i != 0

/-- Python truthiness of an optional string parameter: None and the empty
string are falsy. -/
def truthyStr : Option String → Bool
  | none => false
  | some s => s != ""

/-- Coerce an optional template dictionary to a dictionary: a missing
template is the empty dictionary. -/
def templateData : Option Template → Template
  | none => []
  | some t => t

/-- get_network: list the virtual network pool (one.vnpool.info) and return
the first network satisfying the predicate, or None. -/
def get_network (pred : Network → Bool) (s : St) : Option Network × St :=
  let s1 := emitCall RemoteCall.vnpoolInfo s
  (s1.world.vnets.find? pred, s1)

/-- get_network_by_id: first network whose ID equals the requested id. -/
def get_network_by_id (network_id : Int) (s : St) : Option Network × St :=
  get_network (fun network => network.ID == network_id) s

/-- get_network_by_name: first network whose NAME equals the requested name.
The requested name is optional; comparing a string attribute with None is
False in Python, hence the comparison on Option String. -/
def get_network_by_name (network_name : Option String) (s : St) : Option Network × St :=
  get_network (fun network => some network.NAME == network_name) s

/-- get_network_instance: look up by id when the id parameter is truthy
(so an id of 0 falls through to the name branch), otherwise by name. -/
def get_network_instance (requested_id : Option Int) (requested_name : Option String)
    (s : St) : Option Network × St :=
  match requested_id with
  | some i => if i = 0 then get_network_by_name requested_name s else get_network_by_id i s
  | none => get_network_by_name requested_name s

/-- The info dictionary built from a network record. -/
def networkInfoOf (n : Network) : NetworkInfo :=
  { id := n.ID, name := n.NAME, template := n.TEMPLATE,
    user_name := n.UNAME, user_id := n.UID,
    group_name := n.GNAME, group_id := n.GID,
    clusters := n.CLUSTERS }

/-- get_network_info: build the info dictionary.  Attribute access on None
raises an AttributeError, which aborts the invocation. -/
def get_network_info (network : Option Network) (s : St) : Except Failure NetworkInfo × St :=
  match network with
  | none => failWith Failure.attrError s
  | some n => (Except.ok (networkInfoOf n), s)

/-- get_user_by_name: list the user pool (one.userpool.info) and return the
first user with the given name; otherwise self.fail. -/
def get_user_by_name (user_name : Option String) (s : St) : Except Failure User × St :=
  let s1 := emitCall RemoteCall.userpoolInfo s
  match s1.world.users.find? (fun user => some user.NAME == user_name) with
  | some user => (Except.ok user, s1)
  | none => failWith (Failure.failJson "No user with that name found") s1

/-- get_group_by_name: list the group pool (one.grouppool.info) and return
the first group with the given name; otherwise self.fail. -/
def get_group_by_name (group_name : Option String) (s : St) : Except Failure Group × St :=
  let s1 := emitCall RemoteCall.grouppoolInfo s
  match s1.world.groups.find? (fun group => some group.NAME == group_name) with
  | some group => (Except.ok group, s1)
  | none => failWith (Failure.failJson "No group with that name found") s1

/-- Modelled from the spec: the template-difference computation.  The
function requires_template_update lives in the module_utils of the
collection, which is not part of src; following the words of the spec, the
routine must compute field-level and template differences, so an update is
required exactly when some proposed binding is missing from or different in
the existing template, and an empty proposal never requires an update. -/
def requires_template_update (current : Template) (desired : Template) : Bool :=
  desired.any (fun kv => !(current.contains kv))

/-- get_template_diff: a missing proposed template is treated as the empty
dictionary, then the template comparison decides whether an update is
needed. -/
def get_template_diff (existing_config : NetworkInfo) (proposed_template : Option Template) : Bool :=
  let proposed := templateData proposed_template
  requires_template_update existing_config.template proposed

/-- One comparison step of get_parameter_diff: a proposed parameter is
compared only when it is not None. -/
def diffOpt {α : Type} [DecidableEq α] (proposed : Option α) (existing : α) : Bool :=
  match proposed with
  | none => false
  | some v => v ≠ existing

/-- get_parameter_diff: iterate over the parameter dictionary (keys id, name,
user_name, group_name, state, template in argument order), skip the template
key explicitly, skip keys absent from the existing config (which drops
state), skip None values, and collect the keys whose values differ. -/
def get_parameter_diff (existing_config : NetworkInfo) (proposed_config : Params) : List String :=
  (if diffOpt proposed_config.id existing_config.id then ["id"] else [])
  ++ (if diffOpt proposed_config.name existing_config.name then ["name"] else [])
  ++ (if diffOpt proposed_config.user_name existing_config.user_name then ["user_name"] else [])
  ++ (if diffOpt proposed_config.group_name existing_config.group_name then ["group_name"] else [])

/-- The per-network effect of vn.update with mode 0 on the addressed
network: replace the whole template. -/
def updateFn (network_id : Int) (data : Template) (n : Network) : Network :=
  if n.ID == network_id then { n with TEMPLATE := data } else n

/-- Server semantics of vn.update with mode 0: replace the whole template of
the addressed network. -/
def updateWorld (network_id : Int) (data : Template) (w : World) : World :=
  { w with vnets := w.vnets.map (updateFn network_id data) }

/-- The per-network effect of vn.chown on the addressed network: set the
owner and group; an argument of -1 leaves the corresponding attribute
unchanged.  The server resolves the numeric id back to a name through its
pools. -/
def chownFn (w : World) (network_id : Int) (uid : Int) (gid : Int) (n : Network) : Network :=
  if n.ID == network_id then
    let n1 := if uid == -1 then n else
      { n with UID := uid,
               UNAME := (match w.users.find? (fun u => u.ID == uid) with
                         | some u => u.NAME
                         | none => n.UNAME) }
    if gid == -1 then n1 else
      { n1 with GID := gid,
                GNAME := (match w.groups.find? (fun g => g.ID == gid) with
                          | some g => g.NAME
                          | none => n1.GNAME) }
  else n

/-- Server semantics of vn.chown: apply the per-network chown effect to the
addressed network. -/
def chownWorld (network_id : Int) (uid : Int) (gid : Int) (w : World) : World :=
  { w with vnets := w.vnets.map (chownFn w network_id uid gid) }

/-- Server semantics of vn.delete: remove the addressed network. -/
def deleteWorld (network_id : Int) (w : World) : World :=
  { w with vnets := w.vnets.filter (fun n => !(n.ID == network_id)) }

/-- create_network: outside check mode the allocate argument is built by
string concatenation ("NAME = ..." + name + ... + network_data); the argument
spec declares template as type dict, so network_data is a dictionary (and in
the id branch name is None), and the concatenation raises a TypeError before
the allocate call is ever issued - the non-check-mode create path never
returns and no remote call is made.  In check mode the allocate line is
skipped; the name lookup then runs against the unchanged pool, yields None,
and the info construction raises an AttributeError. -/
def create_network (check_mode : Bool) (name : Option String) (network_data : Option Template)
    (s : St) : Except Failure ModResult × St :=
  if check_mode then
    let nf := get_network_by_name name s
    let gi := get_network_info nf.1 nf.2
    match gi.1 with
    | Except.ok result => (Except.ok { info := some result, changed := some true }, gi.2)
    | Except.error e => (Except.error e, gi.2)
  else failWith Failure.typeError s

/-- update_network: re-fetch the observed network by id, compute the template
diff (updating the template outside check mode) and the parameter diff,
issue the ownership change the diff calls for (note the chown call is not
guarded by check mode in the module), and raise a ValueError when the diff
contains neither user_name nor group_name. -/
def update_network (check_mode : Bool) (network : Network) (params : Params)
    (template : Option Template) (s : St) : Except Failure ModResult × St :=
  let nf := get_network_by_id network.ID s
  let gi := get_network_info nf.1 nf.2
  match gi.1 with
  | Except.error e => (Except.error e, gi.2)
  | Except.ok result =>
    let tdiff := get_template_diff result template
    let s3 :=
      if tdiff ∧ check_mode = false then
        let tdata := templateData template
        let s4 := emitCall (RemoteCall.vnUpdate network.ID tdata 0) gi.2
        { s4 with world := updateWorld network.ID tdata s4.world }
      else gi.2
    let param_diffs := get_parameter_diff result params
    if param_diffs = [] then
      (Except.ok { info := some result, changed := some tdiff }, s3)
    else
      if "user_name" ∈ param_diffs ∧ "group_name" ∈ param_diffs then
        let gu := get_user_by_name params.user_name s3
        match gu.1 with
        | Except.error e => (Except.error e, gu.2)
        | Except.ok user =>
          let gg := get_group_by_name params.group_name gu.2
          match gg.1 with
          | Except.error e => (Except.error e, gg.2)
          | Except.ok group =>
            let s6 := emitCall (RemoteCall.chown network.ID user.ID group.ID) gg.2
            let s7 := { s6 with world := chownWorld network.ID user.ID group.ID s6.world }
            (Except.ok { info := some result, changed := some true }, s7)
      else if "user_name" ∈ param_diffs then
        let gu := get_user_by_name params.user_name s3
        match gu.1 with
        | Except.error e => (Except.error e, gu.2)
        | Except.ok user =>
          let s5 := emitCall (RemoteCall.chown network.ID user.ID (-1)) gu.2
          let s6 := { s5 with world := chownWorld network.ID user.ID (-1) s5.world }
          (Except.ok { info := some result, changed := some true }, s6)
      else if "group_name" ∈ param_diffs then
        let gg := get_group_by_name params.group_name s3
        match gg.1 with
        | Except.error e => (Except.error e, gg.2)
        | Except.ok group =>
          let s5 := emitCall (RemoteCall.chown network.ID (-1) group.ID) gg.2
          let s6 := { s5 with world := chownWorld network.ID (-1) group.ID s5.world }
          (Except.ok { info := some result, changed := some true }, s6)
      else
        failWith Failure.valueError s3

/-- delete_network: report changed False when nothing was found, otherwise
delete (outside check mode) and report changed True. -/
def delete_network (check_mode : Bool) (network : Option Network)
    (s : St) : Except Failure ModResult × St :=
  match network with
  | none => (Except.ok { info := none, changed := some false }, s)
  | some n =>
    let s1 :=
      if check_mode then s
      else
        let s2 := emitCall (RemoteCall.vnDelete n.ID) s
        { s2 with world := deleteWorld n.ID s2.world }
    (Except.ok { info := none, changed := some true }, s1)

/-- The name arm of the query branch: look up by name when the name parameter
is truthy, otherwise fail_json. -/
def query_name_branch (params : Params) (s : St) : Except Failure ModResult × St :=
  if truthyStr params.name then
    let nf := get_network_by_name params.name s
    let gi := get_network_info nf.1 nf.2
    match gi.1 with
    | Except.ok result => (Except.ok { info := some result, changed := none }, gi.2)
    | Except.error e => (Except.error e, gi.2)
  else failWith (Failure.failJson "Query requires either id or name") s

/-- The query branch of run: look up by id when the id parameter is truthy,
else by name when the name parameter is truthy, else fail_json; build the
info dictionary as the result. -/
def query_branch (params : Params) (s : St) : Except Failure ModResult × St :=
  match params.id with
  | some i =>
    if i = 0 then query_name_branch params s
    else
      let nf := get_network_by_id i s
      let gi := get_network_info nf.1 nf.2
      match gi.1 with
      | Except.ok result => (Except.ok { info := some result, changed := none }, gi.2)
      | Except.error e => (Except.error e, gi.2)
  | none => query_name_branch params s

/-- run: the reconciliation routine.  The query state answers from the lookup
and exits.  Otherwise the resource is looked up by id or name; a missing
resource with a truthy id parameter is a failure, a missing resource
otherwise marks needs_creation.  The absent state deletes, the present state
dispatches to create_network (which aborts) or updates.  The unreachable arm
(no network, state not absent, not creating) corresponds to update_network
dereferencing None. -/
def run (check_mode : Bool) (params : Params) (s : St) : Except Failure ModResult × St :=
  if params.state = Sstate.query then query_branch params s
  else
    let gn := get_network_instance params.id params.name s
    let network := gn.1
    let s1 := gn.2
    if network = none ∧ params.state ≠ Sstate.absent then
      (if truthyInt params.id then
        failWith (Failure.failJson "There is no network with that id") s1
      else
        create_network check_mode params.name params.template s1)
    else
      if params.state = Sstate.absent then
        delete_network check_mode network s1
      else
        match network with
        | some n => update_network check_mode n params params.template s1
        | none => failWith Failure.attrError s1

/-- The pure value of the pool lookup performed by get_network_instance. -/
def findNetworkPure (requested_id : Option Int) (requested_name : Option String)
    (w : World) : Option Network :=
  match requested_id with
  | some i =>
    if i = 0 then w.vnets.find? (fun n => some n.NAME == requested_name)
    else w.vnets.find? (fun n => n.ID == i)
  | none => w.vnets.find? (fun n => some n.NAME == requested_name)

/-- The chown calls recorded on a trace, with their arguments. -/
def chownCalls (t : List Event) : List (Int × Int × Int) :=
  t.filterMap (fun e => match e with
    | Event.call (RemoteCall.chown i u g) => some (i, u, g)
    | _ => none)

/-- The events the reconciliation routine can add to a trace: the failure
marker, a pool listing, a whole-template update (mode 0), an ownership
change, or a delete.  The allocate constructor of the call vocabulary is
deliberately outside this set: whether run can emit it is a theorem about
run, not part of this definition. -/
def surfaceEvent (e : Event) : Prop :=
  match e with
  | Event.failed => True
  | Event.call c =>
    c = RemoteCall.vnpoolInfo ∨ c = RemoteCall.userpoolInfo ∨ c = RemoteCall.grouppoolInfo ∨
    (∃ i t, c = RemoteCall.vnUpdate i t 0) ∨
    (∃ i u g, c = RemoteCall.chown i u g) ∨
    (∃ i, c = RemoteCall.vnDelete i)

/-- A sample network used to exercise the claims on concrete inputs. -/
def sampleNet : Network :=
  { ID := 7, NAME := "net7", TEMPLATE := [("A", "1")], UNAME := "admin", UID := 0,
    GNAME := "gadmin", GID := 0, CLUSTERS := [] }

/-- A sample remote state with one network, one user and one group. -/
def sampleWorld : World :=
  { vnets := [sampleNet], users := [{ ID := 5, NAME := "alice" }],
    groups := [{ ID := 6, NAME := "devs" }],
    oneUid := 0, oneUname := "admin", oneGid := 0, oneGname := "gadmin" }

/-- A remote state with no networks. -/
def emptyWorld : World :=
  { vnets := [], users := [{ ID := 5, NAME := "alice" }], groups := [],
    oneUid := 0, oneUname := "admin", oneGid := 0, oneGname := "gadmin" }

/-- A remote state whose user pool holds two users sharing the id 5: the
pool lookup by name finds alice, but the server resolves the id 5 back to
the first user, bob. -/
def dupUserWorld : World :=
  { vnets := [sampleNet],
    users := [{ ID := 5, NAME := "bob" }, { ID := 5, NAME := "alice" }],
    groups := [], oneUid := 0, oneUname := "admin", oneGid := 0, oneGname := "gadmin" }

/-- Parameters that manage the existing network net7 and desire owner alice. -/
def dupOwnerParams : Params :=
  { id := none, name := some "net7", user_name := some "alice", group_name := none,
    state := Sstate.present, template := some [("A", "1")] }

/-- Parameters that create a network named net1 with no ownership request. -/
def plainCreateParams : Params :=
  { id := none, name := some "net1", user_name := none, group_name := none,
    state := Sstate.present, template := some [("A", "1")] }

/-- Parameters that delete the network named net7. -/
def absentParams : Params :=
  { id := none, name := some "net7", user_name := none, group_name := none,
    state := Sstate.absent, template := none }

/-- Query parameters with neither id nor name. -/
def queryNoneParams : Params :=
  { id := none, name := none, user_name := none, group_name := none,
    state := Sstate.query, template := none }

/-- Query parameters for the network with id 7. -/
def queryIdParams : Params :=
  { id := some 7, name := none, user_name := none, group_name := none,
    state := Sstate.query, template := none }

/-- A network whose id is 0. -/
def zeroNet : Network :=
  { ID := 0, NAME := "zero", TEMPLATE := [], UNAME := "admin", UID := 0,
    GNAME := "gadmin", GID := 0, CLUSTERS := [] }

/-- A remote state holding only the network with id 0. -/
def idZeroWorld : World :=
  { vnets := [zeroNet], users := [], groups := [],
    oneUid := 0, oneUname := "admin", oneGid := 0, oneGname := "gadmin" }

/-- Parameters requesting id 0 with state present. -/
def idZeroParams : Params :=
  { id := some 0, name := none, user_name := none, group_name := none,
    state := Sstate.present, template := some [] }

theorem get_network_instance_eq (rid : Option Int) (rname : Option String) (s : St) :
    get_network_instance rid rname s =
      (findNetworkPure rid rname s.world, emitCall RemoteCall.vnpoolInfo s) := by
  cases rid with
  | none => rfl
  | some i =>
    by_cases h : i = 0 <;>
      simp [get_network_instance, findNetworkPure, get_network_by_id, get_network_by_name,
        get_network, emitCall, h]

theorem find_key_unique {α κ : Type} [DecidableEq κ] (key : α → κ) (l : List α) (a : α)
    (hnd : (l.map key).Nodup) (ha : a ∈ l) :
    l.find? (fun x => key x == key a) = some a := by
  induction l with
  | nil => cases ha
  | cons b t ih =>
    simp only [List.map_cons, List.nodup_cons] at hnd
    rcases List.mem_cons.mp ha with rfl | hat
    · simp [List.find?_cons]
    · have hne : key b ≠ key a := by
        intro he
        exact hnd.1 (he ▸ List.mem_map_of_mem key hat)
      have hb : (key b == key a) = false := by simp [hne]
      simp only [List.find?_cons, hb]
      exact ih hnd.2 hat

theorem nodup_key_inj {α κ : Type} (key : α → κ) (l : List α) (a b : α)
    (hnd : (l.map key).Nodup) (ha : a ∈ l) (hb : b ∈ l) (hk : key a = key b) : a = b := by
  induction l with
  | nil => cases ha
  | cons c t ih =>
    simp only [List.map_cons, List.nodup_cons] at hnd
    rcases List.mem_cons.mp ha with rfl | hat
    · rcases List.mem_cons.mp hb with rfl | hbt
      · rfl
      · exact absurd (hk ▸ List.mem_map_of_mem key hbt) hnd.1
    · rcases List.mem_cons.mp hb with rfl | hbt
      · exact absurd (hk ▸ List.mem_map_of_mem key hat) hnd.1
      · exact ih hnd.2 hat hbt

theorem diffOpt_false_iff {α : Type} [DecidableEq α] (p : Option α) (e : α) :
    diffOpt p e = false ↔ p = none ∨ p = some e := by
  cases p <;> simp [diffOpt]

theorem requires_self (t : Template) : requires_template_update t t = false := by
  simp only [requires_template_update, List.any_eq_false, Bool.not_eq_true]
  intro kv hkv
  simp [List.contains_iff_exists_mem_beq]
  exact hkv

theorem emitCall_world (c : RemoteCall) (s : St) : (emitCall c s).world = s.world := rfl

theorem emitCall_trace (c : RemoteCall) (s : St) :
    (emitCall c s).trace = s.trace ++ [Event.call c] := rfl

theorem run_query_eq (cm : Bool) (p : Params) (s : St) (hs : p.state = Sstate.query) :
    run cm p s = query_branch p s := by
  simp [run, hs]

theorem run_absent_eq (cm : Bool) (p : Params) (s : St) (hs : p.state = Sstate.absent) :
    run cm p s =
      delete_network cm (findNetworkPure p.id p.name s.world) (emitCall RemoteCall.vnpoolInfo s) := by
  simp [run, hs, get_network_instance_eq]

theorem run_present_found (cm : Bool) (p : Params) (s : St) (net : Network)
    (hs : p.state = Sstate.present)
    (hf : findNetworkPure p.id p.name s.world = some net) :
    run cm p s = update_network cm net p p.template (emitCall RemoteCall.vnpoolInfo s) := by
  simp [run, hs, get_network_instance_eq, hf]

theorem run_present_notfound_id (cm : Bool) (p : Params) (s : St)
    (hs : p.state = Sstate.present)
    (hf : findNetworkPure p.id p.name s.world = none)
    (hid : truthyInt p.id = true) :
    run cm p s =
      failWith (Failure.failJson "There is no network with that id")
        (emitCall RemoteCall.vnpoolInfo s) := by
  simp [run, hs, get_network_instance_eq, hf, hid]

theorem run_present_notfound_create (cm : Bool) (p : Params) (s : St)
    (hs : p.state = Sstate.present)
    (hf : findNetworkPure p.id p.name s.world = none)
    (hid : truthyInt p.id = false) :
    run cm p s = create_network cm p.name p.template (emitCall RemoteCall.vnpoolInfo s) := by
  simp [run, hs, get_network_instance_eq, hf, hid]


theorem findPure_mem (rid : Option Int) (rname : Option String) (w : World) (net : Network)
    (hf : findNetworkPure rid rname w = some net) : net ∈ w.vnets := by
  unfold findNetworkPure at hf
  rcases rid with _ | i
  · exact List.mem_of_find?_eq_some hf
  · by_cases h : i = 0 <;> simp [h] at hf <;> exact List.mem_of_find?_eq_some hf

theorem findPure_cases (p : Params) (w : World) (net : Network)
    (hMX : p.id = none ∨ p.name = none)
    (hf : findNetworkPure p.id p.name w = some net) :
    (∃ i, p.id = some i ∧ ¬ i = 0 ∧ p.name = none ∧ net.ID = i) ∨
    (p.id = none ∧ p.name = some net.NAME) := by
  unfold findNetworkPure at hf
  rcases hid : p.id with _ | i
  · right
    refine ⟨rfl, ?_⟩
    rw [hid] at hf
    have hbeq := List.find?_some hf
    have hsome : some net.NAME = p.name := by simpa using hbeq
    exact hsome.symm
  · rw [hid] at hf
    by_cases h : i = 0
    · subst h
      simp only [if_pos rfl] at hf
      rcases hMX with h1 | h2
      · exact absurd hid (h1 ▸ by simp)
      · rw [h2] at hf
        have := List.find?_some hf
        simp at this
    · left
      simp only [if_neg h] at hf
      have hname : p.name = none := by
        rcases hMX with h1 | h2
        · rw [h1] at hid; cases hid
        · exact h2
      have hbeq := List.find?_some hf
      refine ⟨i, rfl, h, hname, ?_⟩
      simpa using hbeq

theorem find_by_id_self (w : World) (net : Network)
    (hIds : (w.vnets.map Network.ID).Nodup) (hm : net ∈ w.vnets) :
    w.vnets.find? (fun n => n.ID == net.ID) = some net :=
  find_key_unique Network.ID w.vnets net hIds hm

theorem networkInfoOf_id (n : Network) : (networkInfoOf n).id = n.ID := rfl

theorem networkInfoOf_name (n : Network) : (networkInfoOf n).name = n.NAME := rfl

theorem networkInfoOf_template (n : Network) : (networkInfoOf n).template = n.TEMPLATE := rfl

theorem networkInfoOf_user_name (n : Network) : (networkInfoOf n).user_name = n.UNAME := rfl

theorem networkInfoOf_group_name (n : Network) : (networkInfoOf n).group_name = n.GNAME := rfl

theorem param_diff_nil (info : NetworkInfo) (p : Params) :
    get_parameter_diff info p = [] ↔
      diffOpt p.id info.id = false ∧ diffOpt p.name info.name = false ∧
      diffOpt p.user_name info.user_name = false ∧ diffOpt p.group_name info.group_name = false := by
  unfold get_parameter_diff
  cases h1 : diffOpt p.id info.id <;> cases h2 : diffOpt p.name info.name <;>
    cases h3 : diffOpt p.user_name info.user_name <;>
    cases h4 : diffOpt p.group_name info.group_name <;>
      simp only [if_true, if_false, List.append_nil, List.nil_append, List.append_assoc] <;> simp

theorem run_no_diff (cm : Bool) (p : Params) (w : World) (net : Network)
    (hs : p.state = Sstate.present)
    (hMX : p.id = none ∨ p.name = none)
    (hIds : (w.vnets.map Network.ID).Nodup)
    (hf : findNetworkPure p.id p.name w = some net)
    (ht : requires_template_update net.TEMPLATE (templateData p.template) = false)
    (hu : p.user_name = none ∨ p.user_name = some net.UNAME)
    (hg : p.group_name = none ∨ p.group_name = some net.GNAME) :
    run cm p { world := w, trace := [] } =
      (Except.ok { info := some (networkInfoOf net), changed := some false },
       { world := w,
         trace := [Event.call RemoteCall.vnpoolInfo, Event.call RemoteCall.vnpoolInfo] }) := by
  rw [run_present_found cm p _ net hs (by simpa using hf)]
  have hmem : net ∈ w.vnets := findPure_mem _ _ _ _ hf
  have hre : w.vnets.find? (fun n => n.ID == net.ID) = some net := find_by_id_self w net hIds hmem
  have hdiffs : get_parameter_diff (networkInfoOf net) p = [] := by
    rw [param_diff_nil]
    refine ⟨?_, ?_, ?_, ?_⟩
    · rcases findPure_cases p w net hMX hf with ⟨i, hi, _, _, hnid⟩ | ⟨hi, _⟩
      · rw [hi]; simp [diffOpt, networkInfoOf_id, hnid]
      · rw [hi]; rfl
    · rcases findPure_cases p w net hMX hf with ⟨i, _, _, hn, _⟩ | ⟨_, hn⟩
      · rw [hn]; rfl
      · rw [hn]; simp [diffOpt, networkInfoOf_name]
    · rw [diffOpt_false_iff, networkInfoOf_user_name]; exact hu
    · rw [diffOpt_false_iff, networkInfoOf_group_name]; exact hg
  simp [update_network, get_network_by_id, get_network, emitCall, hre,
    get_network_info, get_template_diff, networkInfoOf_template, ht, hdiffs]


theorem find_id_map_presv (f : Network → Network) (hf : ∀ n, (f n).ID = n.ID)
    (l : List Network) (i : Int) :
    (l.map f).find? (fun n => n.ID == i) = Option.map f (l.find? (fun n => n.ID == i)) := by
  rw [List.find?_map]
  have hp : ((fun n : Network => n.ID == i) ∘ f) = (fun n : Network => n.ID == i) := by
    funext n
    simp [Function.comp, hf]
  rw [hp]

theorem find_name_map_presv (f : Network → Network) (hf : ∀ n, (f n).NAME = n.NAME)
    (l : List Network) (rname : Option String) :
    (l.map f).find? (fun n => some n.NAME == rname) =
      Option.map f (l.find? (fun n => some n.NAME == rname)) := by
  rw [List.find?_map]
  have hp : ((fun n : Network => some n.NAME == rname) ∘ f) =
      (fun n : Network => some n.NAME == rname) := by
    funext n
    simp [Function.comp, hf]
  rw [hp]

theorem map_key_presv {κ : Type} (f : Network → Network) (key : Network → κ)
    (hf : ∀ n, key (f n) = key n) (l : List Network) :
    (l.map f).map key = l.map key := by
  rw [List.map_map]
  exact List.map_congr_left (fun a _ => hf a)

theorem findPure_map (rid : Option Int) (rname : Option String) (w : World)
    (f : Network → Network)
    (hid : ∀ n, (f n).ID = n.ID) (hname : ∀ n, (f n).NAME = n.NAME) :
    findNetworkPure rid rname { w with vnets := w.vnets.map f } =
      Option.map f (findNetworkPure rid rname w) := by
  unfold findNetworkPure
  rcases rid with _ | i
  · exact find_name_map_presv f hname w.vnets rname
  · by_cases h : i = 0
    · simp only [h, if_pos]
      exact find_name_map_presv f hname w.vnets rname
    · simp only [if_neg h]
      exact find_id_map_presv f hid w.vnets i

theorem findPure_delete_self (p : Params) (w : World) (net : Network)
    (hMX : p.id = none ∨ p.name = none)
    (hNames : (w.vnets.map Network.NAME).Nodup)
    (hf : findNetworkPure p.id p.name w = some net) :
    findNetworkPure p.id p.name (deleteWorld net.ID w) = none := by
  rcases findPure_cases p w net hMX hf with ⟨i, hi, hnz, hnm, hnid⟩ | ⟨hi, hnm⟩
  · unfold findNetworkPure deleteWorld
    simp only [hi, if_neg hnz]
    refine List.find?_eq_none.mpr (fun x hx => ?_)
    have hx2 := List.mem_filter.mp hx
    have : (x.ID == net.ID) = false := by
      rcases hb : x.ID == net.ID with _ | _
      · rfl
      · rw [hb] at hx2; simp at hx2
    simp only [hnid] at this
    simp [this]
  · unfold findNetworkPure deleteWorld
    simp only [hi]
    refine List.find?_eq_none.mpr (fun x hx => ?_)
    have hx2 := List.mem_filter.mp hx
    have hxne : x ≠ net := by
      intro he
      rw [he] at hx2
      simp at hx2
    have hmem : net ∈ w.vnets := findPure_mem _ _ _ _ hf
    have hnn : x.NAME ≠ net.NAME := by
      intro he
      exact hxne (nodup_key_inj Network.NAME w.vnets x net hNames hx2.1 hmem he)
    rw [hnm]
    simp [hnn]

theorem find_append_new (l : List Network) (newnet : Network) (pred : Network → Bool)
    (hnone : l.find? pred = none) (hpred : pred newnet = true) :
    (l ++ [newnet]).find? pred = some newnet := by
  rw [List.find?_append, hnone]
  simp [hpred]


theorem find_name_none (l : List Network) :
    l.find? (fun n => some n.NAME == (none : Option String)) = none :=
  List.find?_eq_none.mpr (fun x _ => by simp)

theorem create_network_false_run (name : Option String) (data : Option Template) (s : St) :
    create_network false name data s = failWith Failure.typeError s := rfl

theorem create_network_true_miss_run (name : Option String) (data : Option Template)
    (w : World) (t0 : List Event)
    (hfn : w.vnets.find? (fun n => some n.NAME == name) = none) :
    create_network true name data { world := w, trace := t0 } =
      (Except.error Failure.attrError,
       { world := w, trace := t0 ++ [Event.call RemoteCall.vnpoolInfo, Event.failed] }) := by
  simp [create_network, get_network_by_name, get_network, emitCall, hfn,
    get_network_info, failWith]

theorem update_network_nodiff_run (net : Network) (p : Params) (w : World) (t0 : List Event)
    (hre : w.vnets.find? (fun n => n.ID == net.ID) = some net)
    (hdiffs : get_parameter_diff (networkInfoOf net) p = []) :
    update_network false net p p.template { world := w, trace := t0 } =
      (Except.ok { info := some (networkInfoOf net),
                   changed := some (get_template_diff (networkInfoOf net) p.template) },
       if get_template_diff (networkInfoOf net) p.template then
         { world := updateWorld net.ID (templateData p.template) w,
           trace := t0 ++ [Event.call RemoteCall.vnpoolInfo,
             Event.call (RemoteCall.vnUpdate net.ID (templateData p.template) 0)] }
       else
         { world := w, trace := t0 ++ [Event.call RemoteCall.vnpoolInfo] }) := by
  by_cases htd : get_template_diff (networkInfoOf net) p.template <;>
    simp [update_network, get_network_by_id, get_network, emitCall,
      hre, get_network_info, hdiffs, htd]

theorem update_network_chown_both_run (net : Network) (p : Params) (w : World) (t0 : List Event)
    (u : User) (g : Group)
    (hre : w.vnets.find? (fun n => n.ID == net.ID) = some net)
    (hu : "user_name" ∈ get_parameter_diff (networkInfoOf net) p)
    (hg : "group_name" ∈ get_parameter_diff (networkInfoOf net) p)
    (hfu : w.users.find? (fun x => some x.NAME == p.user_name) = some u)
    (hfg : w.groups.find? (fun x => some x.NAME == p.group_name) = some g) :
    update_network false net p p.template { world := w, trace := t0 } =
      (Except.ok { info := some (networkInfoOf net), changed := some true },
       let td := get_template_diff (networkInfoOf net) p.template
       let tdata := templateData p.template
       let w1 := if td then updateWorld net.ID tdata w else w
       { world := chownWorld net.ID u.ID g.ID w1,
         trace := t0 ++ [Event.call RemoteCall.vnpoolInfo]
           ++ (if td then [Event.call (RemoteCall.vnUpdate net.ID tdata 0)] else [])
           ++ [Event.call RemoteCall.userpoolInfo, Event.call RemoteCall.grouppoolInfo,
               Event.call (RemoteCall.chown net.ID u.ID g.ID)] }) := by
  have hne : get_parameter_diff (networkInfoOf net) p ≠ [] := by
    intro h
    rw [h] at hu
    cases hu
  by_cases htd : get_template_diff (networkInfoOf net) p.template <;>
    simp [update_network, get_network_by_id, get_network, emitCall, hre, get_network_info,
      hne, hu, hg, get_user_by_name, get_group_by_name, hfu, hfg, updateWorld, htd]

theorem update_network_chown_user_run (net : Network) (p : Params) (w : World) (t0 : List Event)
    (u : User)
    (hre : w.vnets.find? (fun n => n.ID == net.ID) = some net)
    (hu : "user_name" ∈ get_parameter_diff (networkInfoOf net) p)
    (hg : "group_name" ∉ get_parameter_diff (networkInfoOf net) p)
    (hfu : w.users.find? (fun x => some x.NAME == p.user_name) = some u) :
    update_network false net p p.template { world := w, trace := t0 } =
      (Except.ok { info := some (networkInfoOf net), changed := some true },
       let td := get_template_diff (networkInfoOf net) p.template
       let tdata := templateData p.template
       let w1 := if td then updateWorld net.ID tdata w else w
       { world := chownWorld net.ID u.ID (-1) w1,
         trace := t0 ++ [Event.call RemoteCall.vnpoolInfo]
           ++ (if td then [Event.call (RemoteCall.vnUpdate net.ID tdata 0)] else [])
           ++ [Event.call RemoteCall.userpoolInfo,
               Event.call (RemoteCall.chown net.ID u.ID (-1))] }) := by
  have hne : get_parameter_diff (networkInfoOf net) p ≠ [] := by
    intro h
    rw [h] at hu
    cases hu
  by_cases htd : get_template_diff (networkInfoOf net) p.template <;>
    simp [update_network, get_network_by_id, get_network, emitCall, hre, get_network_info,
      hne, hu, hg, get_user_by_name, hfu, updateWorld, htd]

theorem update_network_chown_group_run (net : Network) (p : Params) (w : World) (t0 : List Event)
    (g : Group)
    (hre : w.vnets.find? (fun n => n.ID == net.ID) = some net)
    (hu : "user_name" ∉ get_parameter_diff (networkInfoOf net) p)
    (hg : "group_name" ∈ get_parameter_diff (networkInfoOf net) p)
    (hfg : w.groups.find? (fun x => some x.NAME == p.group_name) = some g) :
    update_network false net p p.template { world := w, trace := t0 } =
      (Except.ok { info := some (networkInfoOf net), changed := some true },
       let td := get_template_diff (networkInfoOf net) p.template
       let tdata := templateData p.template
       let w1 := if td then updateWorld net.ID tdata w else w
       { world := chownWorld net.ID (-1) g.ID w1,
         trace := t0 ++ [Event.call RemoteCall.vnpoolInfo]
           ++ (if td then [Event.call (RemoteCall.vnUpdate net.ID tdata 0)] else [])
           ++ [Event.call RemoteCall.grouppoolInfo,
               Event.call (RemoteCall.chown net.ID (-1) g.ID)] }) := by
  have hne : get_parameter_diff (networkInfoOf net) p ≠ [] := by
    intro h
    rw [h] at hg
    cases hg
  by_cases htd : get_template_diff (networkInfoOf net) p.template <;>
    simp [update_network, get_network_by_id, get_network, emitCall, hre, get_network_info,
      hne, hu, hg, get_group_by_name, hfg, updateWorld, htd]


theorem updateFn_ID (i : Int) (t : Template) (n : Network) : (updateFn i t n).ID = n.ID := by
  unfold updateFn
  split <;> rfl

theorem updateFn_NAME (i : Int) (t : Template) (n : Network) : (updateFn i t n).NAME = n.NAME := by
  unfold updateFn
  split <;> rfl

theorem updateFn_UNAME (i : Int) (t : Template) (n : Network) : (updateFn i t n).UNAME = n.UNAME := by
  unfold updateFn
  split <;> rfl

theorem updateFn_GNAME (i : Int) (t : Template) (n : Network) : (updateFn i t n).GNAME = n.GNAME := by
  unfold updateFn
  split <;> rfl

theorem chownFn_ID (w : World) (i uid gid : Int) (n : Network) :
    (chownFn w i uid gid n).ID = n.ID := by
  unfold chownFn
  by_cases h1 : (n.ID == i) = true
  · by_cases h2 : (uid == -1) = true <;> by_cases h3 : (gid == -1) = true <;>
      simp [h1, h2, h3]
  · simp [h1]

theorem chownFn_NAME (w : World) (i uid gid : Int) (n : Network) :
    (chownFn w i uid gid n).NAME = n.NAME := by
  unfold chownFn
  by_cases h1 : (n.ID == i) = true
  · by_cases h2 : (uid == -1) = true <;> by_cases h3 : (gid == -1) = true <;>
      simp [h1, h2, h3]
  · simp [h1]

theorem chownFn_TEMPLATE (w : World) (i uid gid : Int) (n : Network) :
    (chownFn w i uid gid n).TEMPLATE = n.TEMPLATE := by
  unfold chownFn
  by_cases h1 : (n.ID == i) = true
  · by_cases h2 : (uid == -1) = true <;> by_cases h3 : (gid == -1) = true <;>
      simp [h1, h2, h3]
  · simp [h1]

theorem updateFn_self (i : Int) (t : Template) (net : Network) (h : net.ID = i) :
    updateFn i t net = { net with TEMPLATE := t } := by
  simp [updateFn, h]

theorem chownFn_self_both (w : World) (i : Int) (net : Network) (u : User) (g : Group)
    (h : net.ID = i) (hu : u.ID ≠ -1) (hg : g.ID ≠ -1)
    (hfu : w.users.find? (fun x => x.ID == u.ID) = some u)
    (hfg : w.groups.find? (fun x => x.ID == g.ID) = some g) :
    chownFn w i u.ID g.ID net =
      { net with UID := u.ID, UNAME := u.NAME, GID := g.ID, GNAME := g.NAME } := by
  simp [chownFn, h, hu, hg, hfu, hfg]

theorem chownFn_self_user (w : World) (i : Int) (net : Network) (u : User)
    (h : net.ID = i) (hu : u.ID ≠ -1)
    (hfu : w.users.find? (fun x => x.ID == u.ID) = some u) :
    chownFn w i u.ID (-1) net = { net with UID := u.ID, UNAME := u.NAME } := by
  simp [chownFn, h, hu, hfu]

theorem chownFn_self_group (w : World) (i : Int) (net : Network) (g : Group)
    (h : net.ID = i) (hg : g.ID ≠ -1)
    (hfg : w.groups.find? (fun x => x.ID == g.ID) = some g) :
    chownFn w i (-1) g.ID net = { net with GID := g.ID, GNAME := g.NAME } := by
  simp [chownFn, h, hg, hfg]

theorem findPure_updateWorld (rid : Option Int) (rname : Option String) (w : World)
    (i : Int) (t : Template) :
    findNetworkPure rid rname (updateWorld i t w) =
      Option.map (updateFn i t) (findNetworkPure rid rname w) :=
  findPure_map rid rname w (updateFn i t) (updateFn_ID i t) (updateFn_NAME i t)

theorem findPure_chownWorld (rid : Option Int) (rname : Option String) (w : World)
    (i uid gid : Int) :
    findNetworkPure rid rname (chownWorld i uid gid w) =
      Option.map (chownFn w i uid gid) (findNetworkPure rid rname w) :=
  findPure_map rid rname w (chownFn w i uid gid) (chownFn_ID w i uid gid) (chownFn_NAME w i uid gid)

theorem updateWorld_map_ID (i : Int) (t : Template) (w : World) :
    (updateWorld i t w).vnets.map Network.ID = w.vnets.map Network.ID :=
  map_key_presv (updateFn i t) Network.ID (updateFn_ID i t) w.vnets

theorem chownWorld_map_ID (i uid gid : Int) (w : World) :
    (chownWorld i uid gid w).vnets.map Network.ID = w.vnets.map Network.ID :=
  map_key_presv (chownFn w i uid gid) Network.ID (chownFn_ID w i uid gid) w.vnets

theorem updateWorld_users (i : Int) (t : Template) (w : World) :
    (updateWorld i t w).users = w.users := rfl

theorem updateWorld_groups (i : Int) (t : Template) (w : World) :
    (updateWorld i t w).groups = w.groups := rfl

theorem param_diff_ug (info : NetworkInfo) (p : Params)
    (h1 : diffOpt p.id info.id = false) (h2 : diffOpt p.name info.name = false) :
    get_parameter_diff info p =
      (if diffOpt p.user_name info.user_name then ["user_name"] else [])
      ++ (if diffOpt p.group_name info.group_name then ["group_name"] else []) := by
  simp [get_parameter_diff, h1, h2]

theorem found_idname_nodiff (p : Params) (w : World) (net : Network)
    (hMX : p.id = none ∨ p.name = none) (hf : findNetworkPure p.id p.name w = some net) :
    diffOpt p.id (networkInfoOf net).id = false ∧
    diffOpt p.name (networkInfoOf net).name = false := by
  rcases findPure_cases p w net hMX hf with ⟨i, hi, _, hn, hnid⟩ | ⟨hi, hn⟩
  · constructor
    · rw [hi]
      simp [diffOpt, networkInfoOf_id, hnid]
    · rw [hn]
      rfl
  · constructor
    · rw [hi]
      rfl
    · rw [hn]
      simp [diffOpt, networkInfoOf_name]


theorem update_network_user_fail_run (net : Network) (p : Params) (w : World) (t0 : List Event)
    (hre : w.vnets.find? (fun n => n.ID == net.ID) = some net)
    (hu : "user_name" ∈ get_parameter_diff (networkInfoOf net) p)
    (hfu : w.users.find? (fun x => some x.NAME == p.user_name) = none) :
    (update_network false net p p.template { world := w, trace := t0 }).1 =
      Except.error (Failure.failJson "No user with that name found") := by
  have hne : get_parameter_diff (networkInfoOf net) p ≠ [] := by
    intro h
    rw [h] at hu
    cases hu
  by_cases hg : "group_name" ∈ get_parameter_diff (networkInfoOf net) p <;>
    by_cases htd : get_template_diff (networkInfoOf net) p.template <;>
      simp [update_network, get_network_by_id, get_network, emitCall, hre, get_network_info,
        hne, hu, hg, get_user_by_name, hfu, failWith, updateWorld, htd]

theorem update_network_group_fail_run (net : Network) (p : Params) (w : World) (t0 : List Event)
    (hre : w.vnets.find? (fun n => n.ID == net.ID) = some net)
    (hu : "user_name" ∉ get_parameter_diff (networkInfoOf net) p)
    (hg : "group_name" ∈ get_parameter_diff (networkInfoOf net) p)
    (hfg : w.groups.find? (fun x => some x.NAME == p.group_name) = none) :
    (update_network false net p p.template { world := w, trace := t0 }).1 =
      Except.error (Failure.failJson "No group with that name found") := by
  have hne : get_parameter_diff (networkInfoOf net) p ≠ [] := by
    intro h
    rw [h] at hg
    cases hg
  by_cases htd : get_template_diff (networkInfoOf net) p.template <;>
    simp [update_network, get_network_by_id, get_network, emitCall, hre, get_network_info,
      hne, hu, hg, get_group_by_name, hfg, failWith, updateWorld, htd]

theorem update_network_both_group_fail_run (net : Network) (p : Params) (w : World)
    (t0 : List Event) (u : User)
    (hre : w.vnets.find? (fun n => n.ID == net.ID) = some net)
    (hu : "user_name" ∈ get_parameter_diff (networkInfoOf net) p)
    (hg : "group_name" ∈ get_parameter_diff (networkInfoOf net) p)
    (hfu : w.users.find? (fun x => some x.NAME == p.user_name) = some u)
    (hfg : w.groups.find? (fun x => some x.NAME == p.group_name) = none) :
    (update_network false net p p.template { world := w, trace := t0 }).1 =
      Except.error (Failure.failJson "No group with that name found") := by
  have hne : get_parameter_diff (networkInfoOf net) p ≠ [] := by
    intro h
    rw [h] at hu
    cases hu
  by_cases htd : get_template_diff (networkInfoOf net) p.template <;>
    simp [update_network, get_network_by_id, get_network, emitCall, hre, get_network_info,
      hne, hu, hg, get_user_by_name, hfu, get_group_by_name, hfg, failWith, updateWorld, htd]

theorem find_user_facts (w : World) (un : Option String) (u : User)
    (hfu : w.users.find? (fun x => some x.NAME == un) = some u) :
    u ∈ w.users ∧ un = some u.NAME := by
  refine ⟨List.mem_of_find?_eq_some hfu, ?_⟩
  have := List.find?_some hfu
  have h2 : some u.NAME = un := by simpa using this
  exact h2.symm

theorem find_group_facts (w : World) (gn : Option String) (g : Group)
    (hfg : w.groups.find? (fun x => some x.NAME == gn) = some g) :
    g ∈ w.groups ∧ gn = some g.NAME := by
  refine ⟨List.mem_of_find?_eq_some hfg, ?_⟩
  have := List.find?_some hfg
  have h2 : some g.NAME = gn := by simpa using this
  exact h2.symm


/-- Claim C2 (amended): for a reconciliation invocation (state present or
absent) that completes successfully outside check mode, a second identical
invocation converges, reporting changed false and issuing no mutating remote
call, provided the remote state is well formed (no duplicate network ids or
names, no duplicate user or group ids, no reserved id -1 in the user or group
pools) and the id and name parameters are mutually exclusive.  Without the
well-formedness proviso the claim fails: with a duplicate user id the chown
issued by the first invocation resolves to the wrong owner name, and the
second invocation issues the chown again and reports changed true, as
witnessed by the counterexample.  (The create path never completes
successfully - it raises a TypeError before the allocate call - so a
successful first invocation is always an update or a delete.) -/
theorem claim2_amended (w : World) (p : Params) (r : ModResult)
    (hIds : (w.vnets.map Network.ID).Nodup)
    (hNames : (w.vnets.map Network.NAME).Nodup)
    (hUsers : (w.users.map User.ID).Nodup)
    (hGroups : (w.groups.map Group.ID).Nodup)
    (hUid : ∀ x ∈ w.users, x.ID ≠ -1)
    (hGid : ∀ x ∈ w.groups, x.ID ≠ -1)
    (hMX : p.id = none ∨ p.name = none)
    (hq : p.state ≠ Sstate.query)
    (h1 : (run false p { world := w, trace := [] }).1 = Except.ok r) :
    ∃ r2 : ModResult,
      (run false p { world := (run false p { world := w, trace := [] }).2.world,
                     trace := [] }).1 = Except.ok r2 ∧
      r2.changed = some false ∧
      ∀ c : RemoteCall,
        Event.call c ∈
          (run false p { world := (run false p { world := w, trace := [] }).2.world,
                         trace := [] }).2.trace →
        isMutating c = false := by
  cases hst : p.state with
  | query => exact absurd hst hq
  | absent =>
    cases hfp : findNetworkPure p.id p.name w with
    | none =>
      have e1 : run false p { world := w, trace := [] } =
          (Except.ok { info := none, changed := some false },
           { world := w, trace := [Event.call RemoteCall.vnpoolInfo] }) := by
        rw [run_absent_eq false p _ hst]
        simp [delete_network, emitCall, hfp]
      rw [e1]
      dsimp only
      rw [e1]
      refine ⟨_, rfl, rfl, ?_⟩
      intro c hc
      simp at hc
      subst hc
      rfl
    | some net =>
      have e1 : run false p { world := w, trace := [] } =
          (Except.ok { info := none, changed := some true },
           { world := deleteWorld net.ID w,
             trace := [Event.call RemoteCall.vnpoolInfo,
                       Event.call (RemoteCall.vnDelete net.ID)] }) := by
        rw [run_absent_eq false p _ hst]
        simp [delete_network, emitCall, hfp]
      rw [e1]
      dsimp only
      have hfp2 := findPure_delete_self p w net hMX hNames hfp
      have e2 : run false p { world := deleteWorld net.ID w, trace := [] } =
          (Except.ok { info := none, changed := some false },
           { world := deleteWorld net.ID w, trace := [Event.call RemoteCall.vnpoolInfo] }) := by
        rw [run_absent_eq false p _ hst]
        simp [delete_network, emitCall, hfp2]
      rw [e2]
      refine ⟨_, rfl, rfl, ?_⟩
      intro c hc
      simp at hc
      subst hc
      rfl
  | present =>
    cases hfp : findNetworkPure p.id p.name w with
    | none =>
      cases hid : truthyInt p.id with
      | true =>
        have e1 := run_present_notfound_id false p { world := w, trace := [] } hst
          (by simpa using hfp) hid
        rw [e1] at h1
        simp [failWith] at h1
      | false =>
        have e1 := run_present_notfound_create false p { world := w, trace := [] } hst
          (by simpa using hfp) hid
        rw [e1, create_network_false_run] at h1
        simp [failWith] at h1
    | some net =>
      have hmem := findPure_mem _ _ _ _ hfp
      have hre : w.vnets.find? (fun n => n.ID == net.ID) = some net :=
        find_by_id_self w net hIds hmem
      have hidn := found_idname_nodiff p w net hMX hfp
      have hdeq := param_diff_ug (networkInfoOf net) p hidn.1 hidn.2
      have e2 : emitCall RemoteCall.vnpoolInfo { world := w, trace := [] } =
          { world := w, trace := [Event.call RemoteCall.vnpoolInfo] } := rfl
      have e0 := run_present_found false p { world := w, trace := [] } net hst
        (by simpa using hfp)
      rw [e2] at e0
      by_cases hud : diffOpt p.user_name (networkInfoOf net).user_name = true
      · by_cases hgd : diffOpt p.group_name (networkInfoOf net).group_name = true
        · -- both the owner name and the group name differ
          have humem : "user_name" ∈ get_parameter_diff (networkInfoOf net) p := by
            rw [hdeq]
            simp [hud, hgd]
          have hgmem : "group_name" ∈ get_parameter_diff (networkInfoOf net) p := by
            rw [hdeq]
            simp [hud, hgd]
          cases hfu : w.users.find? (fun x => some x.NAME == p.user_name) with
          | none =>
            have hfail := update_network_user_fail_run net p w
              [Event.call RemoteCall.vnpoolInfo] hre humem hfu
            rw [e0] at h1
            rw [hfail] at h1
            cases h1
          | some u =>
            cases hfg : w.groups.find? (fun x => some x.NAME == p.group_name) with
            | none =>
              have hfail := update_network_both_group_fail_run net p w
                [Event.call RemoteCall.vnpoolInfo] u hre humem hgmem hfu hfg
              rw [e0] at h1
              rw [hfail] at h1
              cases h1
            | some g =>
              have huf := find_user_facts w p.user_name u hfu
              have hgf := find_group_facts w p.group_name g hfg
              have hu1 : u.ID ≠ -1 := hUid u huf.1
              have hg1 : g.ID ≠ -1 := hGid g hgf.1
              have eu := update_network_chown_both_run net p w
                [Event.call RemoteCall.vnpoolInfo] u g hre humem hgmem hfu hfg
              have eAll := e0.trans eu
              rw [eAll]
              dsimp only
              set td2 : Template :=
                templateData p.template with htdef
              by_cases htd : get_template_diff (networkInfoOf net) p.template = true
              · rw [if_pos htd]
                have hids1 : ((updateWorld net.ID td2 w).vnets.map Network.ID).Nodup := by
                  rw [updateWorld_map_ID]
                  exact hIds
                have hfp1 : findNetworkPure p.id p.name (updateWorld net.ID td2 w) =
                    some (updateFn net.ID td2 net) := by
                  rw [findPure_updateWorld, hfp]
                  rfl
                have hfu1 : (updateWorld net.ID td2 w).users.find?
                    (fun x => x.ID == u.ID) = some u :=
                  find_key_unique User.ID w.users u hUsers huf.1
                have hfg1 : (updateWorld net.ID td2 w).groups.find?
                    (fun x => x.ID == g.ID) = some g :=
                  find_key_unique Group.ID w.groups g hGroups hgf.1
                have hchown : chownFn (updateWorld net.ID td2 w) net.ID u.ID g.ID (updateFn net.ID td2 net) = { net with TEMPLATE := td2, UID := u.ID, UNAME := u.NAME, GID := g.ID, GNAME := g.NAME } := by
                  rw [updateFn_self net.ID td2 net rfl]
                  exact chownFn_self_both _ net.ID _ u g rfl hu1 hg1 hfu1 hfg1
                have hfp2 : findNetworkPure p.id p.name (chownWorld net.ID u.ID g.ID (updateWorld net.ID td2 w)) = some ({ net with TEMPLATE := td2, UID := u.ID, UNAME := u.NAME, GID := g.ID, GNAME := g.NAME }) := by
                  rw [findPure_chownWorld, hfp1]
                  simp only [Option.map_some']
                  rw [hchown]
                have hids2 : (((chownWorld net.ID u.ID g.ID
                    (updateWorld net.ID td2 w)).vnets.map Network.ID)).Nodup := by
                  rw [chownWorld_map_ID]
                  exact hids1
                have e3 := run_no_diff false p _ _ hst hMX hids2 hfp2
                  (requires_self td2) (Or.inr huf.2) (Or.inr hgf.2)
                rw [e3]
                refine ⟨_, rfl, rfl, ?_⟩
                intro c hc
                simp at hc
                subst hc
                rfl
              · rw [if_neg htd]
                have hfu1 : w.users.find? (fun x => x.ID == u.ID) = some u :=
                  find_key_unique User.ID w.users u hUsers huf.1
                have hfg1 : w.groups.find? (fun x => x.ID == g.ID) = some g :=
                  find_key_unique Group.ID w.groups g hGroups hgf.1
                have hchown : chownFn w net.ID u.ID g.ID net = { net with UID := u.ID, UNAME := u.NAME, GID := g.ID, GNAME := g.NAME } :=
                  chownFn_self_both w net.ID net u g rfl hu1 hg1 hfu1 hfg1
                have hfp2 : findNetworkPure p.id p.name (chownWorld net.ID u.ID g.ID w) = some ({ net with UID := u.ID, UNAME := u.NAME, GID := g.ID, GNAME := g.NAME }) := by
                  rw [findPure_chownWorld, hfp]
                  simp only [Option.map_some']
                  rw [hchown]
                have hids2 : (((chownWorld net.ID u.ID g.ID w).vnets.map Network.ID)).Nodup := by
                  rw [chownWorld_map_ID]
                  exact hIds
                have ht2 : requires_template_update net.TEMPLATE td2 = false := by
                  have := htd
                  simp only [get_template_diff, networkInfoOf_template] at this
                  simpa [htdef] using this
                have e3 := run_no_diff false p _ _ hst hMX hids2 hfp2
                  ht2 (Or.inr huf.2) (Or.inr hgf.2)
                rw [e3]
                refine ⟨_, rfl, rfl, ?_⟩
                intro c hc
                simp at hc
                subst hc
                rfl
        · -- only the owner name differs
          have hgdf : diffOpt p.group_name (networkInfoOf net).group_name = false := by
            simpa using hgd
          have humem : "user_name" ∈ get_parameter_diff (networkInfoOf net) p := by
            rw [hdeq]
            simp [hud, hgdf]
          have hgnot : "group_name" ∉ get_parameter_diff (networkInfoOf net) p := by
            rw [hdeq]
            simp [hud, hgdf]
          have hgok : p.group_name = none ∨ p.group_name = some net.GNAME := by
            have h4 := (diffOpt_false_iff p.group_name (networkInfoOf net).group_name).mp hgdf
            simpa [networkInfoOf_group_name] using h4
          cases hfu : w.users.find? (fun x => some x.NAME == p.user_name) with
          | none =>
            have hfail := update_network_user_fail_run net p w
              [Event.call RemoteCall.vnpoolInfo] hre humem hfu
            rw [e0] at h1
            rw [hfail] at h1
            cases h1
          | some u =>
            have huf := find_user_facts w p.user_name u hfu
            have hu1 : u.ID ≠ -1 := hUid u huf.1
            have eu := update_network_chown_user_run net p w
              [Event.call RemoteCall.vnpoolInfo] u hre humem hgnot hfu
            have eAll := e0.trans eu
            rw [eAll]
            dsimp only
            set td2 : Template :=
              templateData p.template with htdef
            by_cases htd : get_template_diff (networkInfoOf net) p.template = true
            · rw [if_pos htd]
              have hids1 : ((updateWorld net.ID td2 w).vnets.map Network.ID).Nodup := by
                rw [updateWorld_map_ID]
                exact hIds
              have hfp1 : findNetworkPure p.id p.name (updateWorld net.ID td2 w) =
                  some (updateFn net.ID td2 net) := by
                rw [findPure_updateWorld, hfp]
                rfl
              have hfu1 : (updateWorld net.ID td2 w).users.find?
                  (fun x => x.ID == u.ID) = some u :=
                find_key_unique User.ID w.users u hUsers huf.1
              have hchown : chownFn (updateWorld net.ID td2 w) net.ID u.ID (-1) (updateFn net.ID td2 net) = { net with TEMPLATE := td2, UID := u.ID, UNAME := u.NAME } := by
                rw [updateFn_self net.ID td2 net rfl]
                exact chownFn_self_user _ net.ID _ u rfl hu1 hfu1
              have hfp2 : findNetworkPure p.id p.name (chownWorld net.ID u.ID (-1) (updateWorld net.ID td2 w)) = some ({ net with TEMPLATE := td2, UID := u.ID, UNAME := u.NAME }) := by
                rw [findPure_chownWorld, hfp1]
                simp only [Option.map_some']
                rw [hchown]
              have hids2 : (((chownWorld net.ID u.ID (-1)
                  (updateWorld net.ID td2 w)).vnets.map Network.ID)).Nodup := by
                rw [chownWorld_map_ID]
                exact hids1
              have e3 := run_no_diff false p _ _ hst hMX hids2 hfp2
                (requires_self td2) (Or.inr huf.2) hgok
              rw [e3]
              refine ⟨_, rfl, rfl, ?_⟩
              intro c hc
              simp at hc
              subst hc
              rfl
            · rw [if_neg htd]
              have hfu1 : w.users.find? (fun x => x.ID == u.ID) = some u :=
                find_key_unique User.ID w.users u hUsers huf.1
              have hchown : chownFn w net.ID u.ID (-1) net = { net with UID := u.ID, UNAME := u.NAME } :=
                chownFn_self_user w net.ID net u rfl hu1 hfu1
              have hfp2 : findNetworkPure p.id p.name (chownWorld net.ID u.ID (-1) w) = some ({ net with UID := u.ID, UNAME := u.NAME }) := by
                rw [findPure_chownWorld, hfp]
                simp only [Option.map_some']
                rw [hchown]
              have hids2 : (((chownWorld net.ID u.ID (-1) w).vnets.map Network.ID)).Nodup := by
                rw [chownWorld_map_ID]
                exact hIds
              have ht2 : requires_template_update net.TEMPLATE td2 = false := by
                have h5 := htd
                simp only [get_template_diff, networkInfoOf_template] at h5
                simpa [htdef] using h5
              have e3 := run_no_diff false p _ _ hst hMX hids2 hfp2
                ht2 (Or.inr huf.2) hgok
              rw [e3]
              refine ⟨_, rfl, rfl, ?_⟩
              intro c hc
              simp at hc
              subst hc
              rfl
      · have hudf : diffOpt p.user_name (networkInfoOf net).user_name = false := by
          simpa using hud
        have huok : p.user_name = none ∨ p.user_name = some net.UNAME := by
          have h4 := (diffOpt_false_iff p.user_name (networkInfoOf net).user_name).mp hudf
          simpa [networkInfoOf_user_name] using h4
        by_cases hgd : diffOpt p.group_name (networkInfoOf net).group_name = true
        · -- only the group name differs
          have hgmem : "group_name" ∈ get_parameter_diff (networkInfoOf net) p := by
            rw [hdeq]
            simp [hudf, hgd]
          have hunot : "user_name" ∉ get_parameter_diff (networkInfoOf net) p := by
            rw [hdeq]
            simp [hudf, hgd]
          cases hfg : w.groups.find? (fun x => some x.NAME == p.group_name) with
          | none =>
            have hfail := update_network_group_fail_run net p w
              [Event.call RemoteCall.vnpoolInfo] hre hunot hgmem hfg
            rw [e0] at h1
            rw [hfail] at h1
            cases h1
          | some g =>
            have hgf := find_group_facts w p.group_name g hfg
            have hg1 : g.ID ≠ -1 := hGid g hgf.1
            have eu := update_network_chown_group_run net p w
              [Event.call RemoteCall.vnpoolInfo] g hre hunot hgmem hfg
            have eAll := e0.trans eu
            rw [eAll]
            dsimp only
            set td2 : Template :=
              templateData p.template with htdef
            by_cases htd : get_template_diff (networkInfoOf net) p.template = true
            · rw [if_pos htd]
              have hids1 : ((updateWorld net.ID td2 w).vnets.map Network.ID).Nodup := by
                rw [updateWorld_map_ID]
                exact hIds
              have hfp1 : findNetworkPure p.id p.name (updateWorld net.ID td2 w) =
                  some (updateFn net.ID td2 net) := by
                rw [findPure_updateWorld, hfp]
                rfl
              have hfg1 : (updateWorld net.ID td2 w).groups.find?
                  (fun x => x.ID == g.ID) = some g :=
                find_key_unique Group.ID w.groups g hGroups hgf.1
              have hchown : chownFn (updateWorld net.ID td2 w) net.ID (-1) g.ID (updateFn net.ID td2 net) = { net with TEMPLATE := td2, GID := g.ID, GNAME := g.NAME } := by
                rw [updateFn_self net.ID td2 net rfl]
                exact chownFn_self_group _ net.ID _ g rfl hg1 hfg1
              have hfp2 : findNetworkPure p.id p.name (chownWorld net.ID (-1) g.ID (updateWorld net.ID td2 w)) = some ({ net with TEMPLATE := td2, GID := g.ID, GNAME := g.NAME }) := by
                rw [findPure_chownWorld, hfp1]
                simp only [Option.map_some']
                rw [hchown]
              have hids2 : (((chownWorld net.ID (-1) g.ID
                  (updateWorld net.ID td2 w)).vnets.map Network.ID)).Nodup := by
                rw [chownWorld_map_ID]
                exact hids1
              have e3 := run_no_diff false p _ _ hst hMX hids2 hfp2
                (requires_self td2) huok (Or.inr hgf.2)
              rw [e3]
              refine ⟨_, rfl, rfl, ?_⟩
              intro c hc
              simp at hc
              subst hc
              rfl
            · rw [if_neg htd]
              have hfg1 : w.groups.find? (fun x => x.ID == g.ID) = some g :=
                find_key_unique Group.ID w.groups g hGroups hgf.1
              have hchown : chownFn w net.ID (-1) g.ID net = { net with GID := g.ID, GNAME := g.NAME } :=
                chownFn_self_group w net.ID net g rfl hg1 hfg1
              have hfp2 : findNetworkPure p.id p.name (chownWorld net.ID (-1) g.ID w) = some ({ net with GID := g.ID, GNAME := g.NAME }) := by
                rw [findPure_chownWorld, hfp]
                simp only [Option.map_some']
                rw [hchown]
              have hids2 : (((chownWorld net.ID (-1) g.ID w).vnets.map Network.ID)).Nodup := by
                rw [chownWorld_map_ID]
                exact hIds
              have ht2 : requires_template_update net.TEMPLATE td2 = false := by
                have h5 := htd
                simp only [get_template_diff, networkInfoOf_template] at h5
                simpa [htdef] using h5
              have e3 := run_no_diff false p _ _ hst hMX hids2 hfp2
                ht2 huok (Or.inr hgf.2)
              rw [e3]
              refine ⟨_, rfl, rfl, ?_⟩
              intro c hc
              simp at hc
              subst hc
              rfl
        · -- neither the owner nor the group differs
          have hgdf : diffOpt p.group_name (networkInfoOf net).group_name = false := by
            simpa using hgd
          have hgok : p.group_name = none ∨ p.group_name = some net.GNAME := by
            have h4 := (diffOpt_false_iff p.group_name (networkInfoOf net).group_name).mp hgdf
            simpa [networkInfoOf_group_name] using h4
          have hdnil : get_parameter_diff (networkInfoOf net) p = [] := by
            rw [hdeq]
            simp [hudf, hgdf]
          have eu := update_network_nodiff_run net p w
            [Event.call RemoteCall.vnpoolInfo] hre hdnil
          have eAll := e0.trans eu
          rw [eAll]
          dsimp only
          set td2 : Template :=
            templateData p.template with htdef
          by_cases htd : get_template_diff (networkInfoOf net) p.template = true
          · rw [if_pos htd]
            dsimp only
            have hids1 : ((updateWorld net.ID td2 w).vnets.map Network.ID).Nodup := by
              rw [updateWorld_map_ID]
              exact hIds
            have hfp1 : findNetworkPure p.id p.name (updateWorld net.ID td2 w) = some ({ net with TEMPLATE := td2 }) := by
              rw [findPure_updateWorld, hfp]
              simp only [Option.map_some']
              rw [updateFn_self net.ID td2 net rfl]
            have e3 := run_no_diff false p _ _ hst hMX hids1 hfp1
              (requires_self td2) huok hgok
            rw [e3]
            refine ⟨_, rfl, rfl, ?_⟩
            intro c hc
            simp at hc
            subst hc
            rfl
          · rw [if_neg htd]
            dsimp only
            have ht2 : requires_template_update net.TEMPLATE td2 = false := by
              have h5 := htd
              simp only [get_template_diff, networkInfoOf_template] at h5
              simpa [htdef] using h5
            have e3 := run_no_diff false p _ _ hst hMX hIds
              (by simpa using hfp) ht2 huok hgok
            rw [e3]
            refine ⟨_, rfl, rfl, ?_⟩
            intro c hc
            simp at hc
            subst hc
            rfl


/-- A computation aborts cleanly when a successful result leaves no failure
marker on the trace, and an error leaves exactly one failure marker, as the
final event. -/
def AbortsCleanly {α : Type} (out : Except Failure α × St) : Prop :=
  (∀ a, out.1 = Except.ok a → Event.failed ∉ out.2.trace) ∧
  (∀ e, out.1 = Except.error e → ∃ pre, out.2.trace = pre ++ [Event.failed] ∧ Event.failed ∉ pre)

theorem no_failed_emitCall (c : RemoteCall) (s : St) (hs : Event.failed ∉ s.trace) :
    Event.failed ∉ (emitCall c s).trace := by
  simp [emitCall, hs]

theorem ac_failWith {α : Type} (f : Failure) (s : St) (hs : Event.failed ∉ s.trace) :
    AbortsCleanly (failWith f s : Except Failure α × St) := by
  constructor
  · intro a ha
    cases ha
  · intro e he
    exact ⟨s.trace, rfl, hs⟩

theorem ac_ok {α : Type} (a : α) (s : St) (hs : Event.failed ∉ s.trace) :
    AbortsCleanly ((Except.ok a, s) : Except Failure α × St) := by
  constructor
  · intro b hb
    exact hs
  · intro e he
    cases he

theorem ac_get_network_info (n : Option Network) (s : St) (hs : Event.failed ∉ s.trace) :
    AbortsCleanly (get_network_info n s) := by
  cases n with
  | none => exact ac_failWith Failure.attrError s hs
  | some x => exact ac_ok (networkInfoOf x) s hs

theorem get_info_ok_st (n : Option Network) (s : St) (r : NetworkInfo)
    (h : (get_network_info n s).1 = Except.ok r) : (get_network_info n s).2 = s := by
  cases n with
  | none => cases h
  | some x => rfl

theorem ac_get_user_by_name (un : Option String) (s : St) (hs : Event.failed ∉ s.trace) :
    AbortsCleanly (get_user_by_name un s) := by
  unfold get_user_by_name
  cases hf : (emitCall RemoteCall.userpoolInfo s).world.users.find?
      (fun user => some user.NAME == un) with
  | some u =>
    simp only [hf]
    exact ac_ok u _ (no_failed_emitCall _ s hs)
  | none =>
    simp only [hf]
    exact ac_failWith _ _ (no_failed_emitCall _ s hs)

theorem ac_get_group_by_name (gn : Option String) (s : St) (hs : Event.failed ∉ s.trace) :
    AbortsCleanly (get_group_by_name gn s) := by
  unfold get_group_by_name
  cases hf : (emitCall RemoteCall.grouppoolInfo s).world.groups.find?
      (fun group => some group.NAME == gn) with
  | some g =>
    simp only [hf]
    exact ac_ok g _ (no_failed_emitCall _ s hs)
  | none =>
    simp only [hf]
    exact ac_failWith _ _ (no_failed_emitCall _ s hs)

theorem ac_create_network (cm : Bool) (name : Option String) (data : Option Template)
    (s : St) (hs : Event.failed ∉ s.trace) :
    AbortsCleanly (create_network cm name data s) := by
  unfold create_network
  by_cases hcm : cm = true
  · rw [if_pos hcm]
    dsimp only
    have hs2 : Event.failed ∉ (get_network_by_name name s).2.trace := by
      simp only [get_network_by_name, get_network]
      exact no_failed_emitCall _ _ hs
    cases hout : (get_network_info (get_network_by_name name s).1
        (get_network_by_name name s).2).1 with
    | ok result =>
      simp only [hout]
      apply ac_ok
      rw [get_info_ok_st _ _ _ hout]
      exact hs2
    | error e =>
      simp only [hout]
      refine ⟨fun b hb => Except.noConfusion hb, fun e2 he2 => ?_⟩
      cases he2
      exact (ac_get_network_info _ _ hs2).2 e hout
  · rw [if_neg hcm]
    exact ac_failWith _ _ hs

theorem ac_delete_network (cm : Bool) (network : Option Network) (s : St)
    (hs : Event.failed ∉ s.trace) :
    AbortsCleanly (delete_network cm network s) := by
  unfold delete_network
  cases network with
  | none => exact ac_ok _ s hs
  | some n =>
    apply ac_ok
    split
    · exact hs
    · exact no_failed_emitCall _ s hs

theorem ac_update_network (cm : Bool) (net : Network) (p : Params) (tmpl : Option Template)
    (s : St) (hs : Event.failed ∉ s.trace) :
    AbortsCleanly (update_network cm net p tmpl s) := by
  unfold update_network
  dsimp only
  have hs2 : Event.failed ∉ (get_network_by_id net.ID s).2.trace := by
    simp only [get_network_by_id, get_network]
    exact no_failed_emitCall _ s hs
  cases hout : (get_network_info (get_network_by_id net.ID s).1
      (get_network_by_id net.ID s).2).1 with
  | error e =>
    simp only [hout]
    refine ⟨fun b hb => Except.noConfusion hb, fun e2 he2 => ?_⟩
    cases he2
    exact (ac_get_network_info _ _ hs2).2 e hout
  | ok result =>
    simp only [hout]
    rw [get_info_ok_st _ _ _ hout]
    have hs3 : Event.failed ∉ (if get_template_diff result tmpl = true ∧ cm = false then
        ({ emitCall (RemoteCall.vnUpdate net.ID (templateData tmpl) 0)
            (get_network_by_id net.ID s).2 with
          world := updateWorld net.ID (templateData tmpl)
            (emitCall (RemoteCall.vnUpdate net.ID (templateData tmpl) 0)
              (get_network_by_id net.ID s).2).world } : St)
      else (get_network_by_id net.ID s).2).trace := by
      split
      · exact no_failed_emitCall _ _ hs2
      · exact hs2
    generalize hgen : (if get_template_diff result tmpl = true ∧ cm = false then
        ({ emitCall (RemoteCall.vnUpdate net.ID (templateData tmpl) 0)
            (get_network_by_id net.ID s).2 with
          world := updateWorld net.ID (templateData tmpl)
            (emitCall (RemoteCall.vnUpdate net.ID (templateData tmpl) 0)
              (get_network_by_id net.ID s).2).world } : St)
      else (get_network_by_id net.ID s).2) = s3 at hs3 ⊢
    by_cases hd : get_parameter_diff result p = []
    · rw [if_pos hd]
      exact ac_ok _ _ hs3
    · rw [if_neg hd]
      by_cases hug : "user_name" ∈ get_parameter_diff result p ∧
          "group_name" ∈ get_parameter_diff result p
      · rw [if_pos hug]
        cases hfu : (get_user_by_name p.user_name s3).1 with
        | error e =>
          refine ⟨fun b hb => Except.noConfusion hb, fun e2 he2 => ?_⟩
          cases he2
          exact (ac_get_user_by_name p.user_name s3 hs3).2 e hfu
        | ok user =>
          have hsu : Event.failed ∉ (get_user_by_name p.user_name s3).2.trace :=
            (ac_get_user_by_name p.user_name s3 hs3).1 user hfu
          cases hfg : (get_group_by_name p.group_name
              (get_user_by_name p.user_name s3).2).1 with
          | error e =>
            refine ⟨fun b hb => Except.noConfusion hb, fun e2 he2 => ?_⟩
            cases he2
            exact (ac_get_group_by_name _ _ hsu).2 e hfg
          | ok group =>
            apply ac_ok
            exact no_failed_emitCall _ _ ((ac_get_group_by_name _ _ hsu).1 group hfg)
      · rw [if_neg hug]
        by_cases hu : "user_name" ∈ get_parameter_diff result p
        · rw [if_pos hu]
          cases hfu : (get_user_by_name p.user_name s3).1 with
          | error e =>
            refine ⟨fun b hb => Except.noConfusion hb, fun e2 he2 => ?_⟩
            cases he2
            exact (ac_get_user_by_name p.user_name s3 hs3).2 e hfu
          | ok user =>
            apply ac_ok
            exact no_failed_emitCall _ _ ((ac_get_user_by_name p.user_name s3 hs3).1 user hfu)
        · rw [if_neg hu]
          by_cases hg : "group_name" ∈ get_parameter_diff result p
          · rw [if_pos hg]
            cases hfg : (get_group_by_name p.group_name s3).1 with
            | error e =>
              refine ⟨fun b hb => Except.noConfusion hb, fun e2 he2 => ?_⟩
              cases he2
              exact (ac_get_group_by_name p.group_name s3 hs3).2 e hfg
            | ok group =>
              apply ac_ok
              exact no_failed_emitCall _ _ ((ac_get_group_by_name p.group_name s3 hs3).1 group hfg)
          · rw [if_neg hg]
            exact ac_failWith _ _ hs3

theorem ac_query_name_branch (p : Params) (s : St) (hs : Event.failed ∉ s.trace) :
    AbortsCleanly (query_name_branch p s) := by
  unfold query_name_branch
  dsimp only
  by_cases ht : truthyStr p.name = true
  · rw [if_pos ht]
    have h2 : Event.failed ∉ (get_network_by_name p.name s).2.trace := by
      simp only [get_network_by_name, get_network]
      exact no_failed_emitCall _ s hs
    cases hout : (get_network_info (get_network_by_name p.name s).1
        (get_network_by_name p.name s).2).1 with
    | ok result =>
      simp only [hout]
      apply ac_ok
      rw [get_info_ok_st _ _ _ hout]
      exact h2
    | error e =>
      simp only [hout]
      refine ⟨fun b hb => Except.noConfusion hb, fun e2 he2 => ?_⟩
      cases he2
      exact (ac_get_network_info _ _ h2).2 e hout
  · rw [if_neg ht]
    exact ac_failWith _ s hs

theorem ac_query_branch (p : Params) (s : St) (hs : Event.failed ∉ s.trace) :
    AbortsCleanly (query_branch p s) := by
  unfold query_branch
  cases p.id with
  | none => exact ac_query_name_branch p s hs
  | some i =>
    dsimp only
    by_cases hz : i = 0
    · rw [if_pos hz]
      exact ac_query_name_branch p s hs
    · rw [if_neg hz]
      have h2 : Event.failed ∉ (get_network_by_id i s).2.trace := by
        simp only [get_network_by_id, get_network]
        exact no_failed_emitCall _ s hs
      cases hout : (get_network_info (get_network_by_id i s).1
          (get_network_by_id i s).2).1 with
      | ok result =>
        simp only [hout]
        apply ac_ok
        rw [get_info_ok_st _ _ _ hout]
        exact h2
      | error e =>
        simp only [hout]
        refine ⟨fun b hb => Except.noConfusion hb, fun e2 he2 => ?_⟩
        cases he2
        exact (ac_get_network_info _ _ h2).2 e hout

theorem ac_run (cm : Bool) (p : Params) (s : St) (hs : Event.failed ∉ s.trace) :
    AbortsCleanly (run cm p s) := by
  unfold run
  by_cases hq : p.state = Sstate.query
  · rw [if_pos hq]
    exact ac_query_branch p s hs
  · rw [if_neg hq]
    have hs1 : Event.failed ∉ (get_network_instance p.id p.name s).2.trace := by
      rw [get_network_instance_eq]
      exact no_failed_emitCall _ s hs
    by_cases hc : (get_network_instance p.id p.name s).1 = none ∧ p.state ≠ Sstate.absent
    · rw [if_pos hc]
      by_cases hid : truthyInt p.id = true
      · rw [if_pos hid]
        exact ac_failWith _ _ hs1
      · rw [if_neg hid]
        exact ac_create_network cm p.name p.template _ hs1
    · rw [if_neg hc]
      by_cases habs : p.state = Sstate.absent
      · rw [if_pos habs]
        exact ac_delete_network cm _ _ hs1
      · rw [if_neg habs]
        cases hn : (get_network_instance p.id p.name s).1 with
        | some n => exact ac_update_network cm n p p.template _ hs1
        | none => exact ac_failWith _ _ hs1


theorem findPure_falsy_id (rid : Option Int) (rname : Option String) (w : World)
    (hid : truthyInt rid = false) :
    findNetworkPure rid rname w = w.vnets.find? (fun n => some n.NAME == rname) := by
  cases rid with
  | none => rfl
  | some i =>
    have hz : i = 0 := by simpa [truthyInt] using hid
    simp [findNetworkPure, hz]

/-- Claim C1 (amended): for a reconciliation invocation (state present or
absent, outside check mode), exactly one action is chosen by the lookup
outcome and the desired state: a found resource with state present takes the
update path; a missing resource with state present and an untruthy id
dispatches to the create path, which raises a TypeError while concatenating
the allocate argument, so no allocate call is ever issued and the invocation
aborts; a found resource with state absent is deleted and the result reports
changed true; a missing resource with state absent reports changed false and
issues no mutating remote call. -/
theorem claim1_dispatch (w : World) (p : Params) :
    (∀ net : Network, p.state = Sstate.present →
        findNetworkPure p.id p.name w = some net →
        run false p { world := w, trace := [] } =
          update_network false net p p.template
            { world := w, trace := [Event.call RemoteCall.vnpoolInfo] }) ∧
    (p.state = Sstate.present → findNetworkPure p.id p.name w = none →
        truthyInt p.id = false →
        run false p { world := w, trace := [] } =
          create_network false p.name p.template
            { world := w, trace := [Event.call RemoteCall.vnpoolInfo] } ∧
        (run false p { world := w, trace := [] }).1 = Except.error Failure.typeError ∧
        ∀ nm : Option String, ∀ d : Option Template,
          Event.call (RemoteCall.allocate nm d) ∉
            (run false p { world := w, trace := [] }).2.trace) ∧
    (∀ net : Network, p.state = Sstate.absent →
        findNetworkPure p.id p.name w = some net →
        (run false p { world := w, trace := [] }).1 =
          Except.ok { info := none, changed := some true } ∧
        Event.call (RemoteCall.vnDelete net.ID) ∈
          (run false p { world := w, trace := [] }).2.trace) ∧
    (p.state = Sstate.absent → findNetworkPure p.id p.name w = none →
        (run false p { world := w, trace := [] }).1 =
          Except.ok { info := none, changed := some false } ∧
        ∀ c : RemoteCall, Event.call c ∈ (run false p { world := w, trace := [] }).2.trace →
          isMutating c = false) := by
  refine ⟨?_, ?_, ?_, ?_⟩
  · intro net hs hf
    exact run_present_found false p _ net hs (by simpa using hf)
  · intro hs hf hid
    have e1 := run_present_notfound_create false p { world := w, trace := [] } hs
      (by simpa using hf) hid
    refine ⟨e1, ?_, ?_⟩
    · rw [e1, create_network_false_run]
      rfl
    · intro nm d hmem
      rw [e1, create_network_false_run] at hmem
      simp [failWith, emitCall] at hmem
  · intro net hs hf
    have e1 : run false p { world := w, trace := [] } =
        (Except.ok { info := none, changed := some true },
         { world := deleteWorld net.ID w,
           trace := [Event.call RemoteCall.vnpoolInfo,
                     Event.call (RemoteCall.vnDelete net.ID)] }) := by
      rw [run_absent_eq false p _ hs]
      simp [delete_network, emitCall, hf]
    rw [e1]
    exact ⟨rfl, by simp⟩
  · intro hs hf
    have e1 : run false p { world := w, trace := [] } =
        (Except.ok { info := none, changed := some false },
         { world := w, trace := [Event.call RemoteCall.vnpoolInfo] }) := by
      rw [run_absent_eq false p _ hs]
      simp [delete_network, emitCall, hf]
    rw [e1]
    refine ⟨rfl, ?_⟩
    intro c hc
    simp at hc
    subst hc
    rfl

/-- Witness for claim C1 at a concrete input: deleting the existing network
net7 reports changed true and issues the delete call. -/
theorem claim1_witness :
    (run false absentParams { world := sampleWorld, trace := [] }).1 =
      Except.ok { info := none, changed := some true } ∧
    Event.call (RemoteCall.vnDelete sampleNet.ID) ∈
      (run false absentParams { world := sampleWorld, trace := [] }).2.trace :=
  (claim1_dispatch sampleWorld absentParams).2.2.1 sampleNet (by decide) (by decide)

/-- Counterexample to claim C1 as stated: requesting network net1 with state
present against an empty pool dispatches to the create branch, but no create
is issued - the invocation aborts with the TypeError raised while building
the allocate argument, and no allocate call appears on the trace. -/
theorem claim1_counterexample :
    (run false plainCreateParams { world := emptyWorld, trace := [] }).1 =
      Except.error Failure.typeError ∧
    Event.call (RemoteCall.allocate plainCreateParams.name plainCreateParams.template) ∉
      (run false plainCreateParams { world := emptyWorld, trace := [] }).2.trace :=
  ⟨by decide, by decide⟩

/-- Claim C3: any invocation that ends in an error has its failure marker as
the final event of the trace, and as the only one: no remote call of any kind,
in particular no mutating call, is issued after the first error, and no second
error occurs. -/
theorem claim3_first_error_aborts (cm : Bool) (p : Params) (w : World) (e : Failure)
    (h : (run cm p { world := w, trace := [] }).1 = Except.error e) :
    ∃ pre : List Event,
      (run cm p { world := w, trace := [] }).2.trace = pre ++ [Event.failed] ∧
      Event.failed ∉ pre :=
  (ac_run cm p { world := w, trace := [] } (by simp)).2 e h

/-- Witness for claim C3 at a concrete input: a query with neither id nor name
fails, and the failure marker ends the trace. -/
theorem claim3_witness :
    ∃ pre : List Event,
      (run false queryNoneParams { world := emptyWorld, trace := [] }).2.trace =
        pre ++ [Event.failed] ∧
      Event.failed ∉ pre :=
  claim3_first_error_aborts false queryNoneParams emptyWorld
    (Failure.failJson "Query requires either id or name") (by decide)

theorem surface_failed : surfaceEvent Event.failed := trivial

theorem surface_vnpool : surfaceEvent (Event.call RemoteCall.vnpoolInfo) := Or.inl rfl

theorem surface_userpool : surfaceEvent (Event.call RemoteCall.userpoolInfo) :=
  Or.inr (Or.inl rfl)

theorem surface_grouppool : surfaceEvent (Event.call RemoteCall.grouppoolInfo) :=
  Or.inr (Or.inr (Or.inl rfl))

theorem surface_vnUpdate (i : Int) (t : Template) :
    surfaceEvent (Event.call (RemoteCall.vnUpdate i t 0)) :=
  Or.inr (Or.inr (Or.inr (Or.inl ⟨i, t, rfl⟩)))

theorem surface_chown (i u g : Int) : surfaceEvent (Event.call (RemoteCall.chown i u g)) :=
  Or.inr (Or.inr (Or.inr (Or.inr (Or.inl ⟨i, u, g, rfl⟩))))

theorem surface_vnDelete (i : Int) : surfaceEvent (Event.call (RemoteCall.vnDelete i)) :=
  Or.inr (Or.inr (Or.inr (Or.inr (Or.inr ⟨i, rfl⟩))))

theorem surface_emitCall (c : RemoteCall) (s : St) (hc : surfaceEvent (Event.call c))
    (e : Event) (h : e ∈ (emitCall c s).trace) : e ∈ s.trace ∨ surfaceEvent e := by
  simp [emitCall] at h
  rcases h with h | h
  · exact Or.inl h
  · subst h
    exact Or.inr hc

theorem surface_failWith {α : Type} (f : Failure) (s : St) (e : Event)
    (h : e ∈ (failWith f s : Except Failure α × St).2.trace) :
    e ∈ s.trace ∨ surfaceEvent e := by
  simp [failWith] at h
  rcases h with h | h
  · exact Or.inl h
  · subst h
    exact Or.inr surface_failed

theorem surface_info (n : Option Network) (s : St) (e : Event)
    (h : e ∈ (get_network_info n s).2.trace) : e ∈ s.trace ∨ surfaceEvent e := by
  cases n with
  | some x => exact Or.inl h
  | none => exact surface_failWith Failure.attrError s e h

theorem surface_user (un : Option String) (s : St) (e : Event)
    (h : e ∈ (get_user_by_name un s).2.trace) : e ∈ s.trace ∨ surfaceEvent e := by
  unfold get_user_by_name at h
  dsimp only at h
  cases hf : (emitCall RemoteCall.userpoolInfo s).world.users.find?
      (fun user => some user.NAME == un) with
  | some u =>
    rw [hf] at h
    exact surface_emitCall _ s surface_userpool e h
  | none =>
    rw [hf] at h
    rcases surface_failWith _ _ e h with h2 | h2
    · exact surface_emitCall _ s surface_userpool e h2
    · exact Or.inr h2

theorem surface_group (gn : Option String) (s : St) (e : Event)
    (h : e ∈ (get_group_by_name gn s).2.trace) : e ∈ s.trace ∨ surfaceEvent e := by
  unfold get_group_by_name at h
  dsimp only at h
  cases hf : (emitCall RemoteCall.grouppoolInfo s).world.groups.find?
      (fun group => some group.NAME == gn) with
  | some g =>
    rw [hf] at h
    exact surface_emitCall _ s surface_grouppool e h
  | none =>
    rw [hf] at h
    rcases surface_failWith _ _ e h with h2 | h2
    · exact surface_emitCall _ s surface_grouppool e h2
    · exact Or.inr h2

theorem surface_delete (cm : Bool) (n : Option Network) (s : St) (e : Event)
    (h : e ∈ (delete_network cm n s).2.trace) : e ∈ s.trace ∨ surfaceEvent e := by
  unfold delete_network at h
  cases n with
  | none => exact Or.inl h
  | some x =>
    dsimp only at h
    split at h
    · exact Or.inl h
    · exact surface_emitCall _ s (surface_vnDelete x.ID) e h

theorem surface_create (cm : Bool) (name : Option String) (data : Option Template)
    (s : St) (e : Event) (h : e ∈ (create_network cm name data s).2.trace) :
    e ∈ s.trace ∨ surfaceEvent e := by
  unfold create_network at h
  by_cases hcm : cm = true
  · rw [if_pos hcm] at h
    dsimp only at h
    cases hout : (get_network_info (get_network_by_name name s).1
        (get_network_by_name name s).2).1 with
    | ok result =>
      rw [hout] at h
      rcases surface_info _ _ e h with h2 | h2
      · exact surface_emitCall _ s surface_vnpool e h2
      · exact Or.inr h2
    | error e3 =>
      rw [hout] at h
      rcases surface_info _ _ e h with h2 | h2
      · exact surface_emitCall _ s surface_vnpool e h2
      · exact Or.inr h2
  · rw [if_neg hcm] at h
    exact surface_failWith _ _ e h

theorem surface_update (cm : Bool) (net : Network) (p : Params) (tmpl : Option Template)
    (s : St) :
    ∀ e : Event, e ∈ (update_network cm net p tmpl s).2.trace →
      e ∈ s.trace ∨ surfaceEvent e := by
  unfold update_network
  dsimp only
  have hnft : ∀ e : Event, e ∈ (get_network_by_id net.ID s).2.trace →
      e ∈ s.trace ∨ surfaceEvent e :=
    fun e h => surface_emitCall _ s surface_vnpool e h
  cases hout : (get_network_info (get_network_by_id net.ID s).1
      (get_network_by_id net.ID s).2).1 with
  | error e3 =>
    simp only [hout]
    intro e h
    rcases surface_info _ _ e h with h2 | h2
    · exact hnft e h2
    · exact Or.inr h2
  | ok result =>
    simp only [hout]
    rw [get_info_ok_st _ _ _ hout]
    have hA3 : ∀ e : Event, e ∈
        (if get_template_diff result tmpl = true ∧ cm = false then
          ({ emitCall (RemoteCall.vnUpdate net.ID (templateData tmpl) 0)
              (get_network_by_id net.ID s).2 with
            world := updateWorld net.ID (templateData tmpl)
              (emitCall (RemoteCall.vnUpdate net.ID (templateData tmpl) 0)
                (get_network_by_id net.ID s).2).world } : St)
        else (get_network_by_id net.ID s).2).trace →
        e ∈ s.trace ∨ surfaceEvent e := by
      intro e h
      split at h
      · rcases surface_emitCall _ _ (surface_vnUpdate net.ID (templateData tmpl)) e h with h2 | h2
        · exact hnft e h2
        · exact Or.inr h2
      · exact hnft e h
    generalize hgen : (if get_template_diff result tmpl = true ∧ cm = false then
        ({ emitCall (RemoteCall.vnUpdate net.ID (templateData tmpl) 0)
            (get_network_by_id net.ID s).2 with
          world := updateWorld net.ID (templateData tmpl)
            (emitCall (RemoteCall.vnUpdate net.ID (templateData tmpl) 0)
              (get_network_by_id net.ID s).2).world } : St)
      else (get_network_by_id net.ID s).2) = s3 at hA3 ⊢
    by_cases hd : get_parameter_diff result p = []
    · rw [if_pos hd]
      exact hA3
    · rw [if_neg hd]
      by_cases hug : "user_name" ∈ get_parameter_diff result p ∧
          "group_name" ∈ get_parameter_diff result p
      · rw [if_pos hug]
        cases hfu : (get_user_by_name p.user_name s3).1 with
        | error e3 =>
          intro e h
          rcases surface_user _ _ e h with h2 | h2
          · exact hA3 e h2
          · exact Or.inr h2
        | ok user =>
          cases hfg : (get_group_by_name p.group_name
              (get_user_by_name p.user_name s3).2).1 with
          | error e3 =>
            intro e h
            rcases surface_group _ _ e h with h2 | h2
            · rcases surface_user _ _ e h2 with h3 | h3
              · exact hA3 e h3
              · exact Or.inr h3
            · exact Or.inr h2
          | ok group =>
            intro e h
            rcases surface_emitCall _ _ (surface_chown net.ID user.ID group.ID) e h with h2 | h2
            · rcases surface_group _ _ e h2 with h3 | h3
              · rcases surface_user _ _ e h3 with h4 | h4
                · exact hA3 e h4
                · exact Or.inr h4
              · exact Or.inr h3
            · exact Or.inr h2
      · rw [if_neg hug]
        by_cases hu : "user_name" ∈ get_parameter_diff result p
        · rw [if_pos hu]
          cases hfu : (get_user_by_name p.user_name s3).1 with
          | error e3 =>
            intro e h
            rcases surface_user _ _ e h with h2 | h2
            · exact hA3 e h2
            · exact Or.inr h2
          | ok user =>
            intro e h
            rcases surface_emitCall _ _ (surface_chown net.ID user.ID (-1)) e h with h2 | h2
            · rcases surface_user _ _ e h2 with h3 | h3
              · exact hA3 e h3
              · exact Or.inr h3
            · exact Or.inr h2
        · rw [if_neg hu]
          by_cases hg : "group_name" ∈ get_parameter_diff result p
          · rw [if_pos hg]
            cases hfg : (get_group_by_name p.group_name s3).1 with
            | error e3 =>
              intro e h
              rcases surface_group _ _ e h with h2 | h2
              · exact hA3 e h2
              · exact Or.inr h2
            | ok group =>
              intro e h
              rcases surface_emitCall _ _ (surface_chown net.ID (-1) group.ID) e h with h2 | h2
              · rcases surface_group _ _ e h2 with h3 | h3
                · exact hA3 e h3
                · exact Or.inr h3
              · exact Or.inr h2
          · rw [if_neg hg]
            intro e h
            rcases surface_failWith _ _ e h with h2 | h2
            · exact hA3 e h2
            · exact Or.inr h2

theorem surface_qnb (p : Params) (s : St) :
    ∀ e : Event, e ∈ (query_name_branch p s).2.trace → e ∈ s.trace ∨ surfaceEvent e := by
  unfold query_name_branch
  by_cases ht : truthyStr p.name = true
  · rw [if_pos ht]
    dsimp only
    cases hout : (get_network_info (get_network_by_name p.name s).1
        (get_network_by_name p.name s).2).1 with
    | ok result =>
      simp only [hout]
      intro e h
      rcases surface_info _ _ e h with h2 | h2
      · exact surface_emitCall _ s surface_vnpool e h2
      · exact Or.inr h2
    | error e3 =>
      simp only [hout]
      intro e h
      rcases surface_info _ _ e h with h2 | h2
      · exact surface_emitCall _ s surface_vnpool e h2
      · exact Or.inr h2
  · rw [if_neg ht]
    intro e h
    exact surface_failWith _ _ e h

theorem surface_qb (p : Params) (s : St) :
    ∀ e : Event, e ∈ (query_branch p s).2.trace → e ∈ s.trace ∨ surfaceEvent e := by
  unfold query_branch
  cases hid : p.id with
  | none => exact surface_qnb p s
  | some i =>
    dsimp only
    by_cases hz : i = 0
    · rw [if_pos hz]
      exact surface_qnb p s
    · rw [if_neg hz]
      cases hout : (get_network_info (get_network_by_id i s).1
          (get_network_by_id i s).2).1 with
      | ok result =>
        simp only [hout]
        intro e h
        rcases surface_info _ _ e h with h2 | h2
        · exact surface_emitCall _ s surface_vnpool e h2
        · exact Or.inr h2
      | error e3 =>
        simp only [hout]
        intro e h
        rcases surface_info _ _ e h with h2 | h2
        · exact surface_emitCall _ s surface_vnpool e h2
        · exact Or.inr h2

theorem run_surface (cm : Bool) (p : Params) (s : St) :
    ∀ e : Event, e ∈ (run cm p s).2.trace → e ∈ s.trace ∨ surfaceEvent e := by
  by_cases hq : p.state = Sstate.query
  · rw [run_query_eq cm p _ hq]
    exact surface_qb p s
  · by_cases ha : p.state = Sstate.absent
    · rw [run_absent_eq cm p _ ha]
      intro e h
      rcases surface_delete cm _ _ e h with h2 | h2
      · exact surface_emitCall _ s surface_vnpool e h2
      · exact Or.inr h2
    · have hp : p.state = Sstate.present := by
        cases hst : p.state
        · rfl
        · exact absurd hst ha
        · exact absurd hst hq
      cases hf : findNetworkPure p.id p.name s.world with
      | some net =>
        rw [run_present_found cm p _ net hp hf]
        intro e h
        rcases surface_update cm net p p.template _ e h with h2 | h2
        · exact surface_emitCall _ s surface_vnpool e h2
        · exact Or.inr h2
      | none =>
        cases hid : truthyInt p.id with
        | true =>
          rw [run_present_notfound_id cm p _ hp hf hid]
          intro e h
          rcases surface_failWith _ _ e h with h2 | h2
          · exact surface_emitCall _ s surface_vnpool e h2
          · exact Or.inr h2
        | false =>
          rw [run_present_notfound_create cm p _ hp hf hid]
          intro e h
          rcases surface_create cm p.name p.template _ e h with h2 | h2
          · exact surface_emitCall _ s surface_vnpool e h2
          · exact Or.inr h2

/-- Claim C4: every remote call issued by an invocation is one of the
operations the module invokes on the client and the spec names: a pool
listing lookup (vnpool, userpool or grouppool info), the whole-template
update with mode 0, the ownership change, or the delete.  No other remote
operation is called: in particular the allocate endpoint, although present
in the call vocabulary, never appears on any trace. -/
theorem claim4_remote_surface (cm : Bool) (p : Params) (w : World) (c : RemoteCall)
    (h : Event.call c ∈ (run cm p { world := w, trace := [] }).2.trace) :
    c = RemoteCall.vnpoolInfo ∨ c = RemoteCall.userpoolInfo ∨ c = RemoteCall.grouppoolInfo ∨
    (∃ i t, c = RemoteCall.vnUpdate i t 0) ∨
    (∃ i u g, c = RemoteCall.chown i u g) ∨
    (∃ i, c = RemoteCall.vnDelete i) := by
  rcases run_surface cm p { world := w, trace := [] } (Event.call c) h with h2 | h2
  · simp at h2
  · exact h2

/-- Witness for claim C4 at a concrete input: the pool listing issued by a
query is one of the named operations. -/
theorem claim4_witness :
    RemoteCall.vnpoolInfo = RemoteCall.vnpoolInfo ∨
    RemoteCall.vnpoolInfo = RemoteCall.userpoolInfo ∨
    RemoteCall.vnpoolInfo = RemoteCall.grouppoolInfo ∨
    (∃ i t, RemoteCall.vnpoolInfo = RemoteCall.vnUpdate i t 0) ∨
    (∃ i u g, RemoteCall.vnpoolInfo = RemoteCall.chown i u g) ∨
    (∃ i, RemoteCall.vnpoolInfo = RemoteCall.vnDelete i) :=
  claim4_remote_surface false queryIdParams sampleWorld RemoteCall.vnpoolInfo (by decide)


/-- Counterexample to claim C2 as stated: with two users sharing the id 5 in
the user pool, a first invocation asking for net7 owned by alice completes
successfully (it issues chown with uid 5, which the server resolves back to
the first user bob), yet the second identical invocation does not converge:
it sees the owner bob, reports changed true again and issues the mutating
chown call again. -/
theorem claim2_counterexample :
    Except.map ModResult.changed
        (run false dupOwnerParams { world := dupUserWorld, trace := [] }).1 =
      Except.ok (some true) ∧
    Except.map ModResult.changed
        (run false dupOwnerParams
          { world := (run false dupOwnerParams { world := dupUserWorld, trace := [] }).2.world,
            trace := [] }).1 =
      Except.ok (some true) ∧
    Event.call (RemoteCall.chown 7 5 (-1)) ∈
      (run false dupOwnerParams
          { world := (run false dupOwnerParams { world := dupUserWorld, trace := [] }).2.world,
            trace := [] }).2.trace :=
  ⟨by decide, by decide, by decide⟩

/-- Witness for the amended claim C2 at a concrete input: after deleting the
existing network net7, the second identical invocation reports changed false
and issues no mutating call. -/
theorem claim2_witness :
    ∃ r2 : ModResult,
      (run false absentParams
          { world := (run false absentParams { world := sampleWorld, trace := [] }).2.world,
            trace := [] }).1 = Except.ok r2 ∧
      r2.changed = some false ∧
      ∀ c : RemoteCall,
        Event.call c ∈
          (run false absentParams
              { world := (run false absentParams { world := sampleWorld, trace := [] }).2.world,
                trace := [] }).2.trace →
        isMutating c = false :=
  claim2_amended sampleWorld absentParams { info := none, changed := some true }
    (by decide) (by decide) (by decide) (by decide) (by decide) (by decide)
    (by decide) (by decide) (by decide)


/-- Claim C5: a query invocation whose lookup finds a network (by a truthy id,
or else by a truthy name) returns the info record carrying the id, name,
template, owner id and name, and group id and name of the resource, and issues
no mutating remote call: the trace holds only the pool listing. -/
theorem claim5_query (cm : Bool) (p : Params) (w : World) (net : Network)
    (hq : p.state = Sstate.query)
    (hfound :
      (∃ i, p.id = some i ∧ ¬ i = 0 ∧ w.vnets.find? (fun n => n.ID == i) = some net) ∨
      (truthyInt p.id = false ∧ truthyStr p.name = true ∧
        w.vnets.find? (fun n => some n.NAME == p.name) = some net)) :
    run cm p { world := w, trace := [] } =
      (Except.ok { info := some (networkInfoOf net), changed := none },
       { world := w, trace := [Event.call RemoteCall.vnpoolInfo] }) ∧
    ∀ c : RemoteCall,
      Event.call c ∈ (run cm p { world := w, trace := [] }).2.trace →
      isMutating c = false := by
  have he : run cm p { world := w, trace := [] } =
      (Except.ok { info := some (networkInfoOf net), changed := none },
       { world := w, trace := [Event.call RemoteCall.vnpoolInfo] }) := by
    rw [run_query_eq cm p _ hq]
    rcases hfound with ⟨i, hi, hnz, hfind⟩ | ⟨hid, hname, hfind⟩
    · unfold query_branch
      rw [hi]
      simp only [if_neg hnz]
      simp [get_network_by_id, get_network, emitCall, hfind, get_network_info]
    · have hnb : query_name_branch p { world := w, trace := [] } =
          (Except.ok { info := some (networkInfoOf net), changed := none },
           { world := w, trace := [Event.call RemoteCall.vnpoolInfo] }) := by
        unfold query_name_branch
        rw [if_pos hname]
        simp [get_network_by_name, get_network, emitCall, hfind, get_network_info]
      unfold query_branch
      rcases hpi : p.id with _ | i
      · exact hnb
      · have hz : i = 0 := by
          rw [hpi] at hid
          simpa [truthyInt] using hid
        simp only [hz, if_pos rfl]
        exact hnb
  refine ⟨he, ?_⟩
  rw [he]
  intro c hc
  simp at hc
  subst hc
  rfl

/-- Witness for claim C5 at a concrete input: querying id 7 returns the info
record of net7 and issues only the pool listing. -/
theorem claim5_witness :
    run false queryIdParams { world := sampleWorld, trace := [] } =
      (Except.ok { info := some (networkInfoOf sampleNet), changed := none },
       { world := sampleWorld, trace := [Event.call RemoteCall.vnpoolInfo] }) ∧
    ∀ c : RemoteCall,
      Event.call c ∈ (run false queryIdParams { world := sampleWorld, trace := [] }).2.trace →
      isMutating c = false :=
  claim5_query false queryIdParams sampleWorld sampleNet (by decide)
    (Or.inl ⟨7, rfl, by decide, by decide⟩)

/-- Claim C9: in check mode, with state present and no resource found under a
falsy id (so the create path is taken), create_network skips the allocate call
but still performs the name lookup against the unchanged pool and dereferences
the absent result, so the invocation aborts with an AttributeError instead of
returning a changed result: the trace shows the two lookups, no allocate, and
the failure marker. -/
theorem claim9_check_mode_create (w : World) (p : Params)
    (hs : p.state = Sstate.present)
    (hid : truthyInt p.id = false)
    (hf : findNetworkPure p.id p.name w = none) :
    (run true p { world := w, trace := [] }).1 = Except.error Failure.attrError ∧
    (run true p { world := w, trace := [] }).2.trace =
      [Event.call RemoteCall.vnpoolInfo, Event.call RemoteCall.vnpoolInfo, Event.failed] ∧
    ∀ nm : Option String, ∀ d : Option Template,
      Event.call (RemoteCall.allocate nm d) ∉ (run true p { world := w, trace := [] }).2.trace := by
  have hfn : w.vnets.find? (fun n => some n.NAME == p.name) = none := by
    rw [← findPure_falsy_id p.id p.name w hid]
    exact hf
  have e1 := run_present_notfound_create true p { world := w, trace := [] } hs
    (by simpa using hf) hid
  have e2 : run true p { world := w, trace := [] } =
      (Except.error Failure.attrError,
       { world := w,
         trace := [Event.call RemoteCall.vnpoolInfo, Event.call RemoteCall.vnpoolInfo,
                   Event.failed] }) := by
    rw [e1]
    unfold create_network
    simp [get_network_by_name, get_network, emitCall, hfn, get_network_info, failWith]
  rw [e2]
  refine ⟨rfl, rfl, ?_⟩
  intro nm d hmem
  simp at hmem

/-- Witness for claim C9 at a concrete input: a check mode create of net1
against the empty pool aborts with an AttributeError after the second lookup
and issues no allocate. -/
theorem claim9_witness :
    (run true plainCreateParams { world := emptyWorld, trace := [] }).1 =
      Except.error Failure.attrError ∧
    (run true plainCreateParams { world := emptyWorld, trace := [] }).2.trace =
      [Event.call RemoteCall.vnpoolInfo, Event.call RemoteCall.vnpoolInfo, Event.failed] ∧
    ∀ nm : Option String, ∀ d : Option Template,
      Event.call (RemoteCall.allocate nm d) ∉
        (run true plainCreateParams { world := emptyWorld, trace := [] }).2.trace :=
  claim9_check_mode_create emptyWorld plainCreateParams (by decide) (by decide) (by decide)

/-- Claim C10: a requested id of 0 is treated as absent by the truthiness
test: even when a network with ID 0 exists in the pool (so the id lookup
itself would find it), get_network_instance takes the name branch, the lookup
yields nothing, and with state present the invocation takes the create branch
with the None name, which aborts - with an AttributeError in check mode, and
with the TypeError of the allocate-argument concatenation otherwise - instead
of managing the existing resource. -/
theorem claim10_id_zero (w : World) (p : Params) (net : Network) (cm : Bool)
    (hid : p.id = some 0) (hname : p.name = none) (hs : p.state = Sstate.present)
    (hmem : net ∈ w.vnets) (hzero : net.ID = 0) :
    (w.vnets.find? (fun n => n.ID == (0 : Int))).isSome = true ∧
    findNetworkPure p.id p.name w = none ∧
    run cm p { world := w, trace := [] } =
      create_network cm p.name p.template
        { world := w, trace := [Event.call RemoteCall.vnpoolInfo] } ∧
    (run cm p { world := w, trace := [] }).1 =
      Except.error (if cm = true then Failure.attrError else Failure.typeError) := by
  have hfindable : (w.vnets.find? (fun n => n.ID == (0 : Int))).isSome = true := by
    rw [List.find?_isSome]
    exact ⟨net, hmem, by simp [hzero]⟩
  have hnone : findNetworkPure p.id p.name w = none := by
    rw [hid, hname]
    unfold findNetworkPure
    simp only [if_pos rfl]
    exact find_name_none w.vnets
  have hidf : truthyInt p.id = false := by
    rw [hid]
    rfl
  have e1 := run_present_notfound_create cm p { world := w, trace := [] } hs
    (by simpa using hnone) hidf
  refine ⟨hfindable, hnone, e1, ?_⟩
  rw [e1, hname]
  have e2 : emitCall RemoteCall.vnpoolInfo { world := w, trace := [] } =
      { world := w, trace := [Event.call RemoteCall.vnpoolInfo] } := rfl
  rw [e2]
  cases cm with
  | false =>
    rw [create_network_false_run]
    rfl
  | true =>
    rw [create_network_true_miss_run none p.template w [Event.call RemoteCall.vnpoolInfo]
      (find_name_none w.vnets)]
    rfl

/-- Witness for claim C10 at a concrete input: with a pool holding a network
whose ID is 0, requesting id 0 with state present outside check mode takes
the create branch and aborts with the TypeError, never managing the existing
network. -/
theorem claim10_witness :
    ((idZeroWorld.vnets.find? (fun n => n.ID == (0 : Int))).isSome = true ∧
     findNetworkPure idZeroParams.id idZeroParams.name idZeroWorld = none ∧
     run false idZeroParams { world := idZeroWorld, trace := [] } =
       create_network false idZeroParams.name idZeroParams.template
         { world := idZeroWorld, trace := [Event.call RemoteCall.vnpoolInfo] } ∧
     (run false idZeroParams { world := idZeroWorld, trace := [] }).1 =
       Except.error (if false = true then Failure.attrError else Failure.typeError)) :=
  claim10_id_zero idZeroWorld idZeroParams zeroNet false rfl rfl rfl (by decide) rfl


theorem user_name_mem_diff (info : NetworkInfo) (p : Params)
    (h : diffOpt p.user_name info.user_name = true) :
    "user_name" ∈ get_parameter_diff info p := by
  cases h1 : diffOpt p.id info.id <;> cases h2 : diffOpt p.name info.name <;>
    cases h4 : diffOpt p.group_name info.group_name <;>
      simp [get_parameter_diff, h1, h2, h, h4]

theorem group_name_mem_diff (info : NetworkInfo) (p : Params)
    (h : diffOpt p.group_name info.group_name = true) :
    "group_name" ∈ get_parameter_diff info p := by
  cases h1 : diffOpt p.id info.id <;> cases h2 : diffOpt p.name info.name <;>
    cases h3 : diffOpt p.user_name info.user_name <;>
      simp [get_parameter_diff, h1, h2, h3, h]

theorem user_name_not_mem_diff (info : NetworkInfo) (p : Params)
    (h : diffOpt p.user_name info.user_name = false) :
    "user_name" ∉ get_parameter_diff info p := by
  cases h1 : diffOpt p.id info.id <;> cases h2 : diffOpt p.name info.name <;>
    cases h4 : diffOpt p.group_name info.group_name <;>
      simp [get_parameter_diff, h1, h2, h, h4]

theorem group_name_not_mem_diff (info : NetworkInfo) (p : Params)
    (h : diffOpt p.group_name info.group_name = false) :
    "group_name" ∉ get_parameter_diff info p := by
  cases h1 : diffOpt p.id info.id <;> cases h2 : diffOpt p.name info.name <;>
    cases h3 : diffOpt p.user_name info.user_name <;>
      simp [get_parameter_diff, h1, h2, h3, h]

theorem update_network_valueerror_run (net : Network) (p : Params) (w : World) (t0 : List Event)
    (hre : w.vnets.find? (fun n => n.ID == net.ID) = some net)
    (hne : get_parameter_diff (networkInfoOf net) p ≠ [])
    (hu : "user_name" ∉ get_parameter_diff (networkInfoOf net) p)
    (hg : "group_name" ∉ get_parameter_diff (networkInfoOf net) p) :
    update_network false net p p.template { world := w, trace := t0 } =
      (Except.error Failure.valueError,
       if get_template_diff (networkInfoOf net) p.template then
         { world := updateWorld net.ID (templateData p.template) w,
           trace := t0 ++ [Event.call RemoteCall.vnpoolInfo,
             Event.call (RemoteCall.vnUpdate net.ID (templateData p.template) 0), Event.failed] }
       else
         { world := w, trace := t0 ++ [Event.call RemoteCall.vnpoolInfo, Event.failed] }) := by
  by_cases htd : get_template_diff (networkInfoOf net) p.template <;>
    simp [update_network, get_network_by_id, get_network, emitCall, hre, get_network_info,
      hne, hu, hg, failWith, htd]

/-- Claim C6: on the update path of an existing resource (outside check mode),
the ownership change issued is exactly the one the diff calls for: when both
the desired owner name and group name differ from the observed resource, one
chown call sets both ids; when only the owner differs, the chown passes -1 for
the group; when only the group differs, the chown passes -1 for the owner; and
when neither differs no chown call is issued at all. -/
theorem claim6_ownership (p : Params) (w : World) (net : Network)
    (hre : w.vnets.find? (fun n => n.ID == net.ID) = some net) :
    (∀ u : User, ∀ g : Group,
        diffOpt p.user_name net.UNAME = true → diffOpt p.group_name net.GNAME = true →
        w.users.find? (fun x => some x.NAME == p.user_name) = some u →
        w.groups.find? (fun x => some x.NAME == p.group_name) = some g →
        chownCalls (update_network false net p p.template { world := w, trace := [] }).2.trace =
          [(net.ID, u.ID, g.ID)]) ∧
    (∀ u : User,
        diffOpt p.user_name net.UNAME = true → diffOpt p.group_name net.GNAME = false →
        w.users.find? (fun x => some x.NAME == p.user_name) = some u →
        chownCalls (update_network false net p p.template { world := w, trace := [] }).2.trace =
          [(net.ID, u.ID, -1)]) ∧
    (∀ g : Group,
        diffOpt p.user_name net.UNAME = false → diffOpt p.group_name net.GNAME = true →
        w.groups.find? (fun x => some x.NAME == p.group_name) = some g →
        chownCalls (update_network false net p p.template { world := w, trace := [] }).2.trace =
          [(net.ID, -1, g.ID)]) ∧
    (diffOpt p.user_name net.UNAME = false → diffOpt p.group_name net.GNAME = false →
        chownCalls (update_network false net p p.template { world := w, trace := [] }).2.trace =
          []) := by
  refine ⟨?_, ?_, ?_, ?_⟩
  · intro u g hud hgd hfu hfg
    have hud2 : diffOpt p.user_name (networkInfoOf net).user_name = true := by
      rwa [networkInfoOf_user_name]
    have hgd2 : diffOpt p.group_name (networkInfoOf net).group_name = true := by
      rwa [networkInfoOf_group_name]
    rw [update_network_chown_both_run net p w [] u g hre
      (user_name_mem_diff _ _ hud2) (group_name_mem_diff _ _ hgd2) hfu hfg]
    dsimp only
    by_cases htd : get_template_diff (networkInfoOf net) p.template = true
    · rw [if_pos htd]
      simp [chownCalls]
    · rw [if_neg htd]
      simp [chownCalls]
  · intro u hud hgd hfu
    have hud2 : diffOpt p.user_name (networkInfoOf net).user_name = true := by
      rwa [networkInfoOf_user_name]
    have hgd2 : diffOpt p.group_name (networkInfoOf net).group_name = false := by
      rwa [networkInfoOf_group_name]
    rw [update_network_chown_user_run net p w [] u hre
      (user_name_mem_diff _ _ hud2) (group_name_not_mem_diff _ _ hgd2) hfu]
    dsimp only
    by_cases htd : get_template_diff (networkInfoOf net) p.template = true
    · rw [if_pos htd]
      simp [chownCalls]
    · rw [if_neg htd]
      simp [chownCalls]
  · intro g hud hgd hfg
    have hud2 : diffOpt p.user_name (networkInfoOf net).user_name = false := by
      rwa [networkInfoOf_user_name]
    have hgd2 : diffOpt p.group_name (networkInfoOf net).group_name = true := by
      rwa [networkInfoOf_group_name]
    rw [update_network_chown_group_run net p w [] g hre
      (user_name_not_mem_diff _ _ hud2) (group_name_mem_diff _ _ hgd2) hfg]
    dsimp only
    by_cases htd : get_template_diff (networkInfoOf net) p.template = true
    · rw [if_pos htd]
      simp [chownCalls]
    · rw [if_neg htd]
      simp [chownCalls]
  · intro hud hgd
    have hud2 : diffOpt p.user_name (networkInfoOf net).user_name = false := by
      rwa [networkInfoOf_user_name]
    have hgd2 : diffOpt p.group_name (networkInfoOf net).group_name = false := by
      rwa [networkInfoOf_group_name]
    by_cases hd : get_parameter_diff (networkInfoOf net) p = []
    · rw [update_network_nodiff_run net p w [] hre hd]
      dsimp only
      by_cases htd : get_template_diff (networkInfoOf net) p.template = true
      · rw [if_pos htd]
        simp [chownCalls]
      · rw [if_neg htd]
        simp [chownCalls]
    · rw [update_network_valueerror_run net p w [] hre hd
        (user_name_not_mem_diff _ _ hud2) (group_name_not_mem_diff _ _ hgd2)]
      dsimp only
      by_cases htd : get_template_diff (networkInfoOf net) p.template = true
      · rw [if_pos htd]
        simp [chownCalls]
      · rw [if_neg htd]
        simp [chownCalls]

/-- Witness for claim C6 at a concrete input: requesting owner alice and group
devs on net7 issues exactly one chown call setting both ids. -/
theorem claim6_witness :
    chownCalls (update_network false sampleNet
        { id := none, name := some "net7", user_name := some "alice",
          group_name := some "devs", state := Sstate.present,
          template := some [("A", "1")] }
        (some [("A", "1")]) { world := sampleWorld, trace := [] }).2.trace =
      [(sampleNet.ID, (5 : Int), (6 : Int))] :=
  (claim6_ownership
    { id := none, name := some "net7", user_name := some "alice",
      group_name := some "devs", state := Sstate.present,
      template := some [("A", "1")] }
    sampleWorld sampleNet (by decide)).1
    { ID := 5, NAME := "alice" } { ID := 6, NAME := "devs" }
    (by decide) (by decide) (by decide) (by decide)


theorem info_error_shape (n : Option Network) (s : St) (e : Failure)
    (h : (get_network_info n s).1 = Except.error e) : e = Failure.attrError := by
  cases n with
  | none => exact (Except.error.inj h).symm
  | some x => cases h

theorem user_error_shape (un : Option String) (s : St) (e : Failure)
    (h : (get_user_by_name un s).1 = Except.error e) :
    e = Failure.failJson "No user with that name found" := by
  unfold get_user_by_name at h
  dsimp only at h
  cases hf : (emitCall RemoteCall.userpoolInfo s).world.users.find?
      (fun user => some user.NAME == un) with
  | some u =>
    rw [hf] at h
    cases h
  | none =>
    rw [hf] at h
    exact (Except.error.inj h).symm

theorem group_error_shape (gn : Option String) (s : St) (e : Failure)
    (h : (get_group_by_name gn s).1 = Except.error e) :
    e = Failure.failJson "No group with that name found" := by
  unfold get_group_by_name at h
  dsimp only at h
  cases hf : (emitCall RemoteCall.grouppoolInfo s).world.groups.find?
      (fun group => some group.NAME == gn) with
  | some g =>
    rw [hf] at h
    cases h
  | none =>
    rw [hf] at h
    exact (Except.error.inj h).symm

theorem create_error_shape (cm : Bool) (name : Option String) (data : Option Template)
    (s : St) (e : Failure) (h : (create_network cm name data s).1 = Except.error e) :
    e = Failure.attrError ∨ e = Failure.typeError := by
  unfold create_network at h
  by_cases hcm : cm = true
  · rw [if_pos hcm] at h
    dsimp only at h
    cases hout : (get_network_info (get_network_by_name name s).1
        (get_network_by_name name s).2).1 with
    | ok result =>
      rw [hout] at h
      cases h
    | error e2 =>
      rw [hout] at h
      refine Or.inl ?_
      rw [← Except.error.inj h]
      exact info_error_shape _ _ _ hout
  · rw [if_neg hcm] at h
    dsimp only [failWith] at h
    exact Or.inr (Except.error.inj h).symm

theorem delete_no_error (cm : Bool) (n : Option Network) (s : St) (e : Failure) :
    (delete_network cm n s).1 ≠ Except.error e := by
  cases n with
  | none => intro h; cases h
  | some x => intro h; cases h

theorem query_name_error_shape (p : Params) (s : St) (e : Failure)
    (h : (query_name_branch p s).1 = Except.error e) :
    e = Failure.attrError ∨ e = Failure.failJson "Query requires either id or name" := by
  unfold query_name_branch at h
  dsimp only at h
  by_cases ht : truthyStr p.name = true
  · rw [if_pos ht] at h
    cases hout : (get_network_info (get_network_by_name p.name s).1
        (get_network_by_name p.name s).2).1 with
    | ok result =>
      rw [hout] at h
      cases h
    | error e2 =>
      rw [hout] at h
      rw [← Except.error.inj h]
      exact Or.inl (info_error_shape _ _ _ hout)
  · rw [if_neg ht] at h
    exact Or.inr (Except.error.inj h).symm

theorem query_error_shape (p : Params) (s : St) (e : Failure)
    (h : (query_branch p s).1 = Except.error e) :
    e = Failure.attrError ∨ e = Failure.failJson "Query requires either id or name" := by
  unfold query_branch at h
  cases hpi : p.id with
  | none =>
    rw [hpi] at h
    exact query_name_error_shape p s e h
  | some i =>
    rw [hpi] at h
    dsimp only at h
    by_cases hz : i = 0
    · rw [if_pos hz] at h
      exact query_name_error_shape p s e h
    · rw [if_neg hz] at h
      cases hout : (get_network_info (get_network_by_id i s).1
          (get_network_by_id i s).2).1 with
      | ok result =>
        rw [hout] at h
        cases h
      | error e2 =>
        rw [hout] at h
        rw [← Except.error.inj h]
        exact Or.inl (info_error_shape _ _ _ hout)

theorem update_no_value_error (cm : Bool) (net : Network) (p : Params) (tmpl : Option Template)
    (s : St) (hre : s.world.vnets.find? (fun n => n.ID == net.ID) = some net)
    (hsub : ∀ k ∈ get_parameter_diff (networkInfoOf net) p,
      k = "user_name" ∨ k = "group_name") :
    (update_network cm net p tmpl s).1 ≠ Except.error Failure.valueError := by
  unfold update_network
  dsimp only
  have hnf : (get_network_by_id net.ID s).1 = some net := hre
  rw [hnf]
  dsimp only [get_network_info]
  generalize (if get_template_diff (networkInfoOf net) tmpl = true ∧ cm = false then
      ({ emitCall (RemoteCall.vnUpdate net.ID (templateData tmpl) 0)
          (get_network_by_id net.ID s).2 with
        world := updateWorld net.ID (templateData tmpl)
          (emitCall (RemoteCall.vnUpdate net.ID (templateData tmpl) 0)
            (get_network_by_id net.ID s).2).world } : St)
    else (get_network_by_id net.ID s).2) = s3
  by_cases hd : get_parameter_diff (networkInfoOf net) p = []
  · rw [if_pos hd]
    intro hv
    cases hv
  · rw [if_neg hd]
    by_cases hug : "user_name" ∈ get_parameter_diff (networkInfoOf net) p ∧
        "group_name" ∈ get_parameter_diff (networkInfoOf net) p
    · rw [if_pos hug]
      cases hfu : (get_user_by_name p.user_name s3).1 with
      | error e =>
        intro hv
        dsimp only at hv
        rw [Except.error.inj hv] at hfu
        cases user_error_shape _ _ _ hfu
      | ok user =>
        cases hfg : (get_group_by_name p.group_name
            (get_user_by_name p.user_name s3).2).1 with
        | error e =>
          intro hv
          dsimp only at hv
          rw [Except.error.inj hv] at hfg
          cases group_error_shape _ _ _ hfg
        | ok group =>
          intro hv
          dsimp only at hv
          cases hv
    · rw [if_neg hug]
      by_cases hu : "user_name" ∈ get_parameter_diff (networkInfoOf net) p
      · rw [if_pos hu]
        cases hfu : (get_user_by_name p.user_name s3).1 with
        | error e =>
          intro hv
          dsimp only at hv
          rw [Except.error.inj hv] at hfu
          cases user_error_shape _ _ _ hfu
        | ok user =>
          intro hv
          dsimp only at hv
          cases hv
      · rw [if_neg hu]
        by_cases hg : "group_name" ∈ get_parameter_diff (networkInfoOf net) p
        · rw [if_pos hg]
          cases hfg : (get_group_by_name p.group_name s3).1 with
          | error e =>
            intro hv
            dsimp only at hv
            rw [Except.error.inj hv] at hfg
            cases group_error_shape _ _ _ hfg
          | ok group =>
            intro hv
            dsimp only at hv
            cases hv
        · rw [if_neg hg]
          obtain ⟨k, hk⟩ := List.exists_mem_of_ne_nil _ hd
          rcases hsub k hk with rfl | rfl
          · exact absurd hk hu
          · exact absurd hk hg

/-- Claim C8: with the id and name parameters mutually exclusive and the pool
free of duplicate ids (so the record observed by update_network is the one the
lookup found), the parameter diff of a found resource only ever contains the
keys user_name and group_name, and therefore the ValueError branch of
update_network is unreachable: no invocation returns that error. -/
theorem claim8_no_value_error (cm : Bool) (p : Params) (w : World)
    (hMX : p.id = none ∨ p.name = none)
    (hIds : (w.vnets.map Network.ID).Nodup) :
    (∀ net : Network, findNetworkPure p.id p.name w = some net →
        ∀ k, k ∈ get_parameter_diff (networkInfoOf net) p →
          k = "user_name" ∨ k = "group_name") ∧
    (run cm p { world := w, trace := [] }).1 ≠ Except.error Failure.valueError := by
  have hsub : ∀ net : Network, findNetworkPure p.id p.name w = some net →
      ∀ k, k ∈ get_parameter_diff (networkInfoOf net) p →
        k = "user_name" ∨ k = "group_name" := by
    intro net hf k hk
    have hidn := found_idname_nodiff p w net hMX hf
    rw [param_diff_ug _ _ hidn.1 hidn.2] at hk
    rcases List.mem_append.mp hk with h | h
    · by_cases hud : diffOpt p.user_name (networkInfoOf net).user_name = true
      · rw [if_pos hud] at h
        simp at h
        exact Or.inl h
      · rw [if_neg hud] at h
        cases h
    · by_cases hgd : diffOpt p.group_name (networkInfoOf net).group_name = true
      · rw [if_pos hgd] at h
        simp at h
        exact Or.inr h
      · rw [if_neg hgd] at h
        cases h
  refine ⟨hsub, ?_⟩
  cases hst : p.state with
  | query =>
    rw [run_query_eq cm p _ hst]
    intro hv
    rcases query_error_shape p _ _ hv with h | h <;> cases h
  | absent =>
    rw [run_absent_eq cm p _ hst]
    exact delete_no_error cm _ _ Failure.valueError
  | present =>
    cases hfp : findNetworkPure p.id p.name w with
    | none =>
      by_cases hid : truthyInt p.id = true
      · rw [run_present_notfound_id cm p _ hst (by simpa using hfp) hid]
        intro hv
        simp [failWith] at hv
      · have hid2 : truthyInt p.id = false := by simpa using hid
        rw [run_present_notfound_create cm p _ hst (by simpa using hfp) hid2]
        intro hv
        rcases create_error_shape _ _ _ _ _ hv with h2 | h2 <;> cases h2
    | some net =>
      rw [run_present_found cm p _ net hst (by simpa using hfp)]
      exact update_no_value_error cm net p p.template _
        (find_by_id_self w net hIds (findPure_mem _ _ _ _ hfp)) (hsub net hfp)

/-- Witness for claim C8 at a concrete input: an update invocation that
transfers ownership of net7 to alice does not raise the ValueError. -/
theorem claim8_witness :
    (∀ net : Network,
        findNetworkPure none (some "net7") sampleWorld = some net →
        ∀ k, k ∈ get_parameter_diff (networkInfoOf net)
            { id := none, name := some "net7", user_name := some "alice",
              group_name := none, state := Sstate.present,
              template := some [("A", "1")] } →
          k = "user_name" ∨ k = "group_name") ∧
    (run false
        { id := none, name := some "net7", user_name := some "alice",
          group_name := none, state := Sstate.present,
          template := some [("A", "1")] }
        { world := sampleWorld, trace := [] }).1 ≠
      Except.error Failure.valueError :=
  claim8_no_value_error false
    { id := none, name := some "net7", user_name := some "alice",
      group_name := none, state := Sstate.present,
      template := some [("A", "1")] }
    sampleWorld (Or.inl rfl) (by decide)


theorem names_nodup_updateWorld (i : Int) (t : Template) (w : World)
    (h : (w.vnets.map Network.NAME).Nodup) :
    ((updateWorld i t w).vnets.map Network.NAME).Nodup := by
  have he : (updateWorld i t w).vnets.map Network.NAME = w.vnets.map Network.NAME :=
    map_key_presv (updateFn i t) Network.NAME (updateFn_NAME i t) w.vnets
  rw [he]
  exact h

theorem names_nodup_chownWorld (i u g : Int) (w : World)
    (h : (w.vnets.map Network.NAME).Nodup) :
    ((chownWorld i u g w).vnets.map Network.NAME).Nodup := by
  have he : (chownWorld i u g w).vnets.map Network.NAME = w.vnets.map Network.NAME :=
    map_key_presv (chownFn w i u g) Network.NAME (chownFn_NAME w i u g) w.vnets
  rw [he]
  exact h

theorem names_nodup_deleteWorld (i : Int) (w : World)
    (h : (w.vnets.map Network.NAME).Nodup) :
    ((deleteWorld i w).vnets.map Network.NAME).Nodup :=
  List.Nodup.sublist (List.Sublist.map Network.NAME (List.filter_sublist w.vnets)) h

theorem info_world (n : Option Network) (s : St) : (get_network_info n s).2.world = s.world := by
  cases n <;> rfl

theorem info_trace_sup (n : Option Network) (s : St) (e : Event)
    (he : e ≠ Event.failed) (h : e ∈ (get_network_info n s).2.trace) : e ∈ s.trace := by
  cases n with
  | some x => exact h
  | none =>
    simp only [get_network_info, failWith] at h
    rcases List.mem_append.mp h with h1 | h1
    · exact h1
    · simp at h1
      exact absurd h1 he

theorem user_world (un : Option String) (s : St) :
    (get_user_by_name un s).2.world = s.world := by
  unfold get_user_by_name
  dsimp only
  cases hf : (emitCall RemoteCall.userpoolInfo s).world.users.find?
      (fun user => some user.NAME == un) <;> simp [hf, failWith, emitCall]

theorem group_world (gn : Option String) (s : St) :
    (get_group_by_name gn s).2.world = s.world := by
  unfold get_group_by_name
  dsimp only
  cases hf : (emitCall RemoteCall.grouppoolInfo s).world.groups.find?
      (fun group => some group.NAME == gn) <;> simp [hf, failWith, emitCall]

theorem user_trace_sup (un : Option String) (s : St) (nm : Option String) (d : Option Template)
    (h : Event.call (RemoteCall.allocate nm d) ∈ (get_user_by_name un s).2.trace) :
    Event.call (RemoteCall.allocate nm d) ∈ s.trace := by
  unfold get_user_by_name at h
  dsimp only at h
  cases hf : (emitCall RemoteCall.userpoolInfo s).world.users.find?
      (fun user => some user.NAME == un) <;>
    rw [hf] at h <;> simp [failWith, emitCall] at h <;> exact h

theorem group_trace_sup (gn : Option String) (s : St) (nm : Option String) (d : Option Template)
    (h : Event.call (RemoteCall.allocate nm d) ∈ (get_group_by_name gn s).2.trace) :
    Event.call (RemoteCall.allocate nm d) ∈ s.trace := by
  unfold get_group_by_name at h
  dsimp only at h
  cases hf : (emitCall RemoteCall.grouppoolInfo s).world.groups.find?
      (fun group => some group.NAME == gn) <;>
    rw [hf] at h <;> simp [failWith, emitCall] at h <;> exact h

theorem delete_frame (cm : Bool) (n : Option Network) (s : St) :
    (∀ nm d, Event.call (RemoteCall.allocate nm d) ∈ (delete_network cm n s).2.trace →
      Event.call (RemoteCall.allocate nm d) ∈ s.trace) ∧
    ((s.world.vnets.map Network.NAME).Nodup →
      (((delete_network cm n s).2.world).vnets.map Network.NAME).Nodup) := by
  unfold delete_network
  cases n with
  | none => exact ⟨fun nm d h => h, fun h => h⟩
  | some x =>
    dsimp only
    by_cases hcm : cm = true
    · rw [if_pos hcm]
      exact ⟨fun nm d h => h, fun h => h⟩
    · rw [if_neg hcm]
      constructor
      · intro nm d h
        simp [emitCall] at h
        exact h
      · intro h
        exact names_nodup_deleteWorld x.ID s.world h

theorem update_frame (cm : Bool) (net : Network) (p : Params) (tmpl : Option Template)
    (s : St) :
    (∀ nm d, Event.call (RemoteCall.allocate nm d) ∈ (update_network cm net p tmpl s).2.trace →
      Event.call (RemoteCall.allocate nm d) ∈ s.trace) ∧
    ((s.world.vnets.map Network.NAME).Nodup →
      (((update_network cm net p tmpl s).2.world).vnets.map Network.NAME).Nodup) := by
  unfold update_network
  dsimp only
  have hnfw : (get_network_by_id net.ID s).2.world = s.world := rfl
  have hnft : ∀ nm d, Event.call (RemoteCall.allocate nm d) ∈ (get_network_by_id net.ID s).2.trace →
      Event.call (RemoteCall.allocate nm d) ∈ s.trace := by
    intro nm d h
    simp [get_network_by_id, get_network, emitCall] at h
    exact h
  cases hout : (get_network_info (get_network_by_id net.ID s).1
      (get_network_by_id net.ID s).2).1 with
  | error e =>
    simp only [hout]
    constructor
    · intro nm d h
      exact hnft nm d (info_trace_sup _ _ _ (by simp) h)
    · intro h
      rw [info_world]
      rw [hnfw]
      exact h
  | ok result =>
    simp only [hout]
    rw [get_info_ok_st _ _ _ hout]
    have hA3 : ∀ nm d, Event.call (RemoteCall.allocate nm d) ∈
        (if get_template_diff result tmpl = true ∧ cm = false then
          ({ emitCall (RemoteCall.vnUpdate net.ID (templateData tmpl) 0)
              (get_network_by_id net.ID s).2 with
            world := updateWorld net.ID (templateData tmpl)
              (emitCall (RemoteCall.vnUpdate net.ID (templateData tmpl) 0)
                (get_network_by_id net.ID s).2).world } : St)
        else (get_network_by_id net.ID s).2).trace →
        Event.call (RemoteCall.allocate nm d) ∈ s.trace := by
      intro nm d h
      split at h
      · simp [emitCall] at h
        exact hnft nm d (by simpa [emitCall] using h)
      · exact hnft nm d h
    have hB3 : (s.world.vnets.map Network.NAME).Nodup →
        (((if get_template_diff result tmpl = true ∧ cm = false then
          ({ emitCall (RemoteCall.vnUpdate net.ID (templateData tmpl) 0)
              (get_network_by_id net.ID s).2 with
            world := updateWorld net.ID (templateData tmpl)
              (emitCall (RemoteCall.vnUpdate net.ID (templateData tmpl) 0)
                (get_network_by_id net.ID s).2).world } : St)
        else (get_network_by_id net.ID s).2).world).vnets.map Network.NAME).Nodup := by
      intro h
      split
      · exact names_nodup_updateWorld _ _ _ h
      · exact h
    generalize hgen : (if get_template_diff result tmpl = true ∧ cm = false then
        ({ emitCall (RemoteCall.vnUpdate net.ID (templateData tmpl) 0)
            (get_network_by_id net.ID s).2 with
          world := updateWorld net.ID (templateData tmpl)
            (emitCall (RemoteCall.vnUpdate net.ID (templateData tmpl) 0)
              (get_network_by_id net.ID s).2).world } : St)
      else (get_network_by_id net.ID s).2) = s3 at hA3 hB3 ⊢
    by_cases hd : get_parameter_diff result p = []
    · rw [if_pos hd]
      exact ⟨hA3, hB3⟩
    · rw [if_neg hd]
      by_cases hug : "user_name" ∈ get_parameter_diff result p ∧
          "group_name" ∈ get_parameter_diff result p
      · rw [if_pos hug]
        cases hfu : (get_user_by_name p.user_name s3).1 with
        | error e =>
          exact ⟨fun nm d h => hA3 nm d (user_trace_sup _ _ _ _ h),
            fun h => by rw [user_world]; exact hB3 h⟩
        | ok user =>
          cases hfg : (get_group_by_name p.group_name
              (get_user_by_name p.user_name s3).2).1 with
          | error e =>
            refine ⟨fun nm d h => hA3 nm d (user_trace_sup _ _ _ _ (group_trace_sup _ _ _ _ h)),
              fun h => ?_⟩
            rw [group_world, user_world]
            exact hB3 h
          | ok group =>
            constructor
            · intro nm d h
              simp [emitCall] at h
              exact hA3 nm d (user_trace_sup _ _ _ _ (group_trace_sup _ _ _ _ (by simpa [emitCall] using h)))
            · intro h
              dsimp only
              apply names_nodup_chownWorld
              rw [emitCall_world, group_world, user_world]
              exact hB3 h
      · rw [if_neg hug]
        by_cases hu : "user_name" ∈ get_parameter_diff result p
        · rw [if_pos hu]
          cases hfu : (get_user_by_name p.user_name s3).1 with
          | error e =>
            exact ⟨fun nm d h => hA3 nm d (user_trace_sup _ _ _ _ h),
              fun h => by rw [user_world]; exact hB3 h⟩
          | ok user =>
            constructor
            · intro nm d h
              simp [emitCall] at h
              exact hA3 nm d (user_trace_sup _ _ _ _ (by simpa [emitCall] using h))
            · intro h
              dsimp only
              apply names_nodup_chownWorld
              rw [emitCall_world, user_world]
              exact hB3 h
        · rw [if_neg hu]
          by_cases hg : "group_name" ∈ get_parameter_diff result p
          · rw [if_pos hg]
            cases hfg : (get_group_by_name p.group_name s3).1 with
            | error e =>
              exact ⟨fun nm d h => hA3 nm d (group_trace_sup _ _ _ _ h),
                fun h => by rw [group_world]; exact hB3 h⟩
            | ok group =>
              constructor
              · intro nm d h
                simp [emitCall] at h
                exact hA3 nm d (group_trace_sup _ _ _ _ (by simpa [emitCall] using h))
              · intro h
                dsimp only
                apply names_nodup_chownWorld
                rw [emitCall_world, group_world]
                exact hB3 h
          · rw [if_neg hg]
            refine ⟨fun nm d h => ?_, fun h => hB3 h⟩
            simp [failWith] at h
            exact hA3 nm d h

theorem qnb_frame (p : Params) (s : St) :
    (∀ nm d, Event.call (RemoteCall.allocate nm d) ∈ (query_name_branch p s).2.trace →
      Event.call (RemoteCall.allocate nm d) ∈ s.trace) ∧
    (query_name_branch p s).2.world = s.world := by
  unfold query_name_branch
  by_cases ht : truthyStr p.name = true
  · rw [if_pos ht]
    dsimp only
    cases hout : (get_network_info (get_network_by_name p.name s).1
        (get_network_by_name p.name s).2).1 with
    | ok result =>
      simp only [hout]
      refine ⟨fun nm d h => ?_, ?_⟩
      · have h2 := info_trace_sup _ _ _ (by simp) h
        simpa [get_network_by_name, get_network, emitCall] using h2
      · rw [info_world]
        rfl
    | error e =>
      simp only [hout]
      refine ⟨fun nm d h => ?_, ?_⟩
      · have h2 := info_trace_sup _ _ _ (by simp) h
        simpa [get_network_by_name, get_network, emitCall] using h2
      · rw [info_world]
        rfl
  · rw [if_neg ht]
    refine ⟨fun nm d h => ?_, rfl⟩
    simp [failWith] at h
    exact h

theorem qb_frame (p : Params) (s : St) :
    (∀ nm d, Event.call (RemoteCall.allocate nm d) ∈ (query_branch p s).2.trace →
      Event.call (RemoteCall.allocate nm d) ∈ s.trace) ∧
    (query_branch p s).2.world = s.world := by
  unfold query_branch
  cases hid : p.id with
  | none => exact qnb_frame p s
  | some i =>
    dsimp only
    by_cases hz : i = 0
    · rw [if_pos hz]
      exact qnb_frame p s
    · rw [if_neg hz]
      cases hout : (get_network_info (get_network_by_id i s).1
          (get_network_by_id i s).2).1 with
      | ok result =>
        simp only [hout]
        refine ⟨fun nm d h => ?_, ?_⟩
        · have h2 := info_trace_sup _ _ _ (by simp) h
          simpa [get_network_by_id, get_network, emitCall] using h2
        · rw [info_world]
          rfl
      | error e =>
        simp only [hout]
        refine ⟨fun nm d h => ?_, ?_⟩
        · have h2 := info_trace_sup _ _ _ (by simp) h
          simpa [get_network_by_id, get_network, emitCall] using h2
        · rw [info_world]
          rfl

theorem create_frame (cm : Bool) (name : Option String) (data : Option Template) (s : St) :
    (∀ nm d, Event.call (RemoteCall.allocate nm d) ∈ (create_network cm name data s).2.trace →
      Event.call (RemoteCall.allocate nm d) ∈ s.trace) ∧
    (create_network cm name data s).2.world = s.world := by
  unfold create_network
  by_cases hcm : cm = true
  · rw [if_pos hcm]
    dsimp only
    cases hout : (get_network_info (get_network_by_name name s).1
        (get_network_by_name name s).2).1 with
    | ok result =>
      simp only [hout]
      refine ⟨fun nm d h => ?_, ?_⟩
      · have h2 := info_trace_sup _ _ _ (by simp) h
        simpa [get_network_by_name, get_network, emitCall] using h2
      · rw [info_world]
        rfl
    | error e =>
      simp only [hout]
      refine ⟨fun nm d h => ?_, ?_⟩
      · have h2 := info_trace_sup _ _ _ (by simp) h
        simpa [get_network_by_name, get_network, emitCall] using h2
      · rw [info_world]
        rfl
  · rw [if_neg hcm]
    refine ⟨fun nm d h => ?_, rfl⟩
    simp [failWith] at h
    exact h

/-- Claim C7: every operation preserves the at-most-one-resource-per-name
invariant: an allocate call appears in the trace of an invocation only when
it carries the requested name and template and the name lookup over the
resource pool found no network with the requested name, and every invocation
maps a remote state whose network names are pairwise distinct to a remote
state whose network names are pairwise distinct. -/
theorem claim7_invariant (cm : Bool) (p : Params) (w : World) :
    (∀ nm d, Event.call (RemoteCall.allocate nm d) ∈ (run cm p ⟨w, []⟩).2.trace →
      nm = p.name ∧ d = p.template ∧
      w.vnets.find? (fun n => some n.NAME == p.name) = none) ∧
    ((w.vnets.map Network.NAME).Nodup →
      (((run cm p ⟨w, []⟩).2.world).vnets.map Network.NAME).Nodup) := by
  by_cases hq : p.state = Sstate.query
  · rw [run_query_eq cm p _ hq]
    constructor
    · intro nm d h
      have h2 := (qb_frame p ⟨w, []⟩).1 nm d h
      simp at h2
    · intro h
      rw [(qb_frame p ⟨w, []⟩).2]
      exact h
  · by_cases ha : p.state = Sstate.absent
    · rw [run_absent_eq cm p _ ha]
      constructor
      · intro nm d h
        have h2 := (delete_frame cm _ _).1 nm d h
        simp [emitCall] at h2
      · intro h
        exact (delete_frame cm _ _).2 h
    · have hp : p.state = Sstate.present := by
        cases hst : p.state
        · rfl
        · exact absurd hst ha
        · exact absurd hst hq
      cases hf : findNetworkPure p.id p.name w with
      | some net =>
        rw [run_present_found cm p _ net hp hf]
        constructor
        · intro nm d h
          have h2 := (update_frame cm net p p.template _).1 nm d h
          simp [emitCall] at h2
        · intro h
          exact (update_frame cm net p p.template _).2 h
      | none =>
        cases hid : truthyInt p.id with
        | true =>
          rw [run_present_notfound_id cm p _ hp hf hid]
          constructor
          · intro nm d h
            simp [failWith, emitCall] at h
          · intro h
            exact h
        | false =>
          rw [run_present_notfound_create cm p _ hp hf hid]
          constructor
          · intro nm d h
            have h2 := (create_frame cm p.name p.template _).1 nm d h
            simp [emitCall] at h2
          · intro h
            rw [(create_frame cm p.name p.template _).2]
            exact h

theorem claim7_witness :
    ((sampleWorld.vnets.map Network.NAME).Nodup) ∧
    (((run false absentParams ⟨sampleWorld, []⟩).2.world).vnets.map Network.NAME).Nodup :=
  ⟨by decide, (claim7_invariant false absentParams sampleWorld).2 (by decide)⟩

end OneNetwork
